import Mathlib

/-!
Verification of the structural-inference and query-resolution engine of the
Financial-Metric-Query-App repository.

The Python sources are shallowly embedded:
* `DebugHeader.py` — header/section/glossary detection (`detect_first_nonempty_row`,
  `extract_header_signature`, `find_repeating_headers`, `detect_sectors`,
  `detect_glossary`, `get_merged_parent`, `detect_multirow_sheet`);
* `New_app/query_processor.py` — the live processor imported by `app.py`
  (`_parse_sheets`, `_find_column_across_sheets`, `_find_company`,
  `_get_sector_rows`, the aggregation handlers, and the `process_query`
  pattern dispatch).

Modelling conventions:
* a worksheet cell is `CellVal`: blank (`none`), a string, a number
  (Python `int`/`float`/`bool`, modelled as `ℚ`), or any other non-numeric
  object carrying its `str()` rendering;
* rows and columns are 1-based `Nat` indices; Excel column letters are
  replaced by their numeric index (the code converts between the two with
  `get_column_letter` / `column_index_from_string`, a bijection);
* Python float arithmetic is modelled exactly over `ℚ`;
* the decimal `str()` rendering of a number is abstracted by `ratStr`
  (it agrees with Python on integers; no theorem depends on the rendering
  of a non-integer).
-/

/-! ## Python string primitives -/

/-- Python whitespace for `str.strip` / `\s` (ASCII part of the class). -/
def isSpaceChar (c : Char) : Bool :=
  c = ' ' || c = '\t' || c = '\n' || c = '\r' || c = '\x0b' || c = '\x0c'

/-- Characters of a string with leading and trailing whitespace removed. -/
def stripChars (l : List Char) : List Char :=
  ((l.dropWhile isSpaceChar).reverse.dropWhile isSpaceChar).reverse

/-- Python `str.strip()`. -/
def pyStrip (s : String) : String := String.mk (stripChars s.data)

/-- Python `str.lower()` (ASCII). -/
def pyLower (s : String) : String := String.mk (s.data.map Char.toLower)

/-- Python `str.upper()` (ASCII). -/
def pyUpper (s : String) : String := String.mk (s.data.map Char.toUpper)

/-- Python `c in s` for a single character. -/
def containsChar (s : String) (c : Char) : Bool := s.data.contains c

/-- Python `s.replace(c, '')` for a single-character pattern. -/
def removeChar (s : String) (c : Char) : String :=
  String.mk (s.data.filter (fun x => x ≠ c))

/-- Python `s.replace(c, d)` for single characters. -/
def replaceChar (s : String) (c d : Char) : String :=
  String.mk (s.data.map (fun x => if x = c then d else x))

/-- Python `pat in s` for a multi-character pattern. -/
def containsSeqChars (pat : List Char) : List Char → Bool
  | [] => pat.isEmpty
  | c :: rest => pat.isPrefixOf (c :: rest) || containsSeqChars pat rest

/-- Python `pat in s` on strings. -/
def containsSeq (pat s : String) : Bool := containsSeqChars pat.data s.data

/-- Characters before the first occurrence of `pat` (the whole string when
absent): Python `s.split(pat)[0]`. -/
def takeBeforeSeqChars (pat : List Char) : List Char → List Char
  | [] => []
  | c :: rest =>
      if pat.isPrefixOf (c :: rest) then [] else c :: takeBeforeSeqChars pat rest

/-- Python `s.split(pat)[0]` on strings. -/
def takeBeforeSeq (pat s : String) : String := String.mk (takeBeforeSeqChars pat.data s.data)

/-- Python `s.split(' ')[0]`. -/
def firstWord (s : String) : String := takeBeforeSeq " " s

/-- Python `sep.join(parts)`. -/
def joinSep (sep : String) : List String → String
  | [] => ""
  | [x] => x
  | x :: y :: rest => x ++ sep ++ joinSep sep (y :: rest)

/-- Python `range(a, b)` as a list. -/
def pyRange (a b : Nat) : List Nat := List.range' a (b - a)

theorem mem_pyRange {a b r : Nat} : r ∈ pyRange a b ↔ a ≤ r ∧ r < b := by
  unfold pyRange
  rw [List.mem_range'_1]
  omega

/-! ## Cells, sheets, workbooks -/

/-- Decimal rendering of a number used by Python `str()`. It coincides with
Python on integral values; no theorem below depends on the rendering of a
non-integral value. -/
def ratStr (q : ℚ) : String :=
  if q.den = 1 then toString q.num else toString q.num ++ "/" ++ toString q.den

/-- Value of one worksheet cell, as seen through `openpyxl` with
`data_only=True`: blank, text, a number (`int`/`float`/`bool`), or some other
non-numeric object carrying its `str()` rendering. -/
inductive CellVal where
  | none : CellVal
  | str : String → CellVal
  | num : ℚ → CellVal
  | other : String → CellVal
deriving DecidableEq

/-- Python `str(value)`. -/
def CellVal.pyStr : CellVal → String
  | .none => "None"
  | .str s => s
  | .num q => ratStr q
  | .other s => s

/-- Python truthiness of a cell value (`if cell_value:`). -/
def CellVal.truthy : CellVal → Bool
  | .none => false
  | .str s => s ≠ ""
  | .num q => q ≠ 0
  | .other _ => true

/-- Python `isinstance(value, (int, float))`, extracting the number. -/
def CellVal.toNum : CellVal → Option ℚ
  | .num q => some q
  | _ => Option.none

/-- Python `value in (None, '')` — the blank test used throughout the source. -/
def cellBlank : CellVal → Bool
  | .none => true
  | .str s => s = ""
  | _ => false

/-- Bounds of a merged cell region (`merged_range.bounds`), 1-based inclusive. -/
structure MergedRange where
  minRow : Nat
  maxRow : Nat
  minCol : Nat
  maxCol : Nat
deriving DecidableEq

/-- A worksheet: a total cell grid (blank outside the used range), its extents,
and its merged regions in enumeration order. -/
structure Sheet where
  cells : Nat → Nat → CellVal
  maxRow : Nat
  maxCol : Nat
  merged : List MergedRange

/-- A workbook: its sheets as (name, sheet) in `wb.sheetnames` order. -/
structure Workbook where
  sheets : List (String × Sheet)

/-! ## DebugHeader.py -/

/-- DebugHeader.get_merged_parent: the anchor (top-left) value of the first
merged region containing the cell, else the cell's own value. The bounds
returned by the Python function are discarded by every caller modelled here. -/
def get_merged_parent (sheet : Sheet) (row col : Nat) : CellVal :=
  match sheet.merged.find? (fun mr =>
      decide (mr.minRow ≤ row ∧ row ≤ mr.maxRow ∧ mr.minCol ≤ col ∧ col ≤ mr.maxCol)) with
  | some mr => sheet.cells mr.minRow mr.minCol
  | Option.none => sheet.cells row col

/-- DebugHeader.detect_first_nonempty_row (default `max_scan = 10`). -/
def detect_first_nonempty_row (sheet : Sheet) : Nat :=
  match (pyRange 1 11).find? (fun r =>
      (pyRange 1 (sheet.maxCol + 1)).any (fun c => !(cellBlank (sheet.cells r c)))) with
  | some r => r
  | Option.none => 1

/-- DebugHeader.count_filled_header_cells (default `num_rows = 2`): the number
of filled (row, col) positions in a 2-row window, rows beyond `max_row`
skipped. -/
def count_filled_header_cells (sheet : Sheet) (start_row : Nat) : Nat :=
  ((pyRange start_row (start_row + 2)).map (fun row =>
    if sheet.maxRow < row then 0
    else ((pyRange 1 (sheet.maxCol + 1)).filter
      (fun col => !(cellBlank (sheet.cells row col)))).length)).sum

/-- DebugHeader.detect_multirow_sheet: among the first 3 sheets, the one with
the most filled cells in a 2-row window at its first non-empty row; Python
`max` over the insertion-ordered dict returns the first maximum. -/
def detect_multirow_sheet (wb : Workbook) : String :=
  let counts := (wb.sheets.take 3).map (fun p =>
    (p.1, count_filled_header_cells p.2 (detect_first_nonempty_row p.2)))
  match counts with
  | [] => ""
  | c :: cs => (cs.foldl (fun best x => if best.2 < x.2 then x else best) c).1

/-- DebugHeader.extract_header_signature: per column 1..max_column, the tuple
of stripped non-blank cell texts across the band's rows. -/
def extract_header_signature (sheet : Sheet) (header_rows : List Nat) : List (List String) :=
  (pyRange 1 (sheet.maxCol + 1)).map (fun col =>
    header_rows.filterMap (fun row =>
      let v := sheet.cells row col
      if cellBlank v then Option.none else some (pyStrip v.pyStr)))

/-- DebugHeader.find_repeating_headers: rows in
`range(base_header_rows[-1] + 1, max_row - 1)` whose same-height band
(`[row + i for i in range(len(base_header_rows))]`) has the base signature. -/
def find_repeating_headers (sheet : Sheet) (base_header_rows : List Nat) : List Nat :=
  let base_signature := extract_header_signature sheet base_header_rows
  (pyRange (base_header_rows.getLastD 0 + 1) (sheet.maxRow - 1)).filter (fun row =>
    decide (extract_header_signature sheet (List.range' row base_header_rows.length) =
      base_signature))

/-- Test of one row of DebugHeader.detect_sectors: column 1 holds a string
whose stripped text is longer than 4 characters, and column 2 (blank when the
sheet has a single column, mirroring `row[1] if len(row) > 1 else None`) is
blank; on success the (row, stripped label) marker. -/
def sector_test (sheet : Sheet) (row : Nat) : Option (Nat × String) :=
  match sheet.cells row 1 with
  | .str s =>
      let b_val := if 1 < sheet.maxCol then sheet.cells row 2 else CellVal.none
      if 4 < (pyStrip s).length && cellBlank b_val then some (row, pyStrip s)
      else Option.none
  | _ => Option.none

/-- DebugHeader.detect_sectors: scan rows top to bottom, stopping at the
glossary boundary when one was found (`detect_glossary` only ever returns a
row index ≥ 2, so Python's truthiness test on it is just presence). -/
def detect_sectors (sheet : Sheet) (glossary_start : Option Nat) : List (Nat × String) :=
  ((pyRange 1 (sheet.maxRow + 1)).takeWhile (fun row =>
      match glossary_start with
      | some g => decide (row < g)
      | Option.none => true)).filterMap (sector_test sheet)

/-- Per-row test of DebugHeader.detect_glossary: some cell's text contains a
colon and the count of filled cells is strictly between 0 and the column
width. -/
def glossary_row_test (sheet : Sheet) (row : Nat) : Bool :=
  let cols := pyRange 1 (sheet.maxCol + 1)
  let colon_found := cols.any (fun col =>
    match sheet.cells row col with
    | .str s => containsChar s ':'
    | _ => false)
  let filled_count := (cols.filter (fun col => !(cellBlank (sheet.cells row col)))).length
  colon_found && decide (0 < filled_count) && decide (filled_count < sheet.maxCol)

/-- DebugHeader.detect_glossary: first row after the header band passing
`glossary_row_test`, skipping the repeating-header rows, their successors and
the supplied sector rows. -/
def detect_glossary (sheet : Sheet) (header_rows repeating_header_rows sector_rows : List Nat) :
    Option Nat :=
  let exclude := repeating_header_rows ++ repeating_header_rows.map (· + 1) ++ sector_rows
  (pyRange (header_rows.getLastD 0 + 1) (sheet.maxRow + 1)).find? (fun row =>
    !(decide (row ∈ exclude)) && glossary_row_test sheet row)

/-! ## _parse_sheets (New_app/query_processor.py lines 47-100) -/

/-- Header rows of a sheet: `[header_start]`, or the two-row band
`[header_start, header_start + 1]` for the designated multirow sheet. -/
def sheet_header_rows (sheet : Sheet) (is_multirow : Bool) : List Nat :=
  let header_start := detect_first_nonempty_row sheet
  if is_multirow then [header_start, header_start + 1] else [header_start]

/-- Column hierarchy collected by `_parse_sheets` (lines 61-68): for each
header row not beyond `max_row`, the stripped merged-anchor text when it is
non-blank. No de-duplication is performed. -/
def header_hierarchy (sheet : Sheet) (header_rows : List Nat) (col : Nat) : List String :=
  header_rows.filterMap (fun row =>
    if sheet.maxRow < row then Option.none
    else
      let v := get_merged_parent sheet row col
      if cellBlank v then Option.none else some (pyStrip v.pyStr))

/-- Loop of the hierarchy collection in DebugHeader.print_sheet_headers
(lines 134-142), threading the accumulated hierarchy. -/
def header_hierarchy_dedup_go (sheet : Sheet) (col : Nat) :
    List Nat → List String → List String
  | [], hierarchy => hierarchy
  | row :: rest, hierarchy =>
      if sheet.maxRow < row then header_hierarchy_dedup_go sheet col rest hierarchy
      else
        let v := get_merged_parent sheet row col
        if cellBlank v then header_hierarchy_dedup_go sheet col rest hierarchy
        else
          let label := pyStrip v.pyStr
          if label ∈ hierarchy then header_hierarchy_dedup_go sheet col rest hierarchy
          else header_hierarchy_dedup_go sheet col rest (hierarchy ++ [label])

/-- Column hierarchy printed by DebugHeader.print_sheet_headers (lines
133-142): same collection as `header_hierarchy`, but a label already present
is not appended again. -/
def header_hierarchy_dedup (sheet : Sheet) (header_rows : List Nat) (col : Nat) : List String :=
  header_hierarchy_dedup_go sheet col header_rows []

/-- Whether some header row of a column carries the (merged-anchor, stripped,
upper-cased) token CODE (lines 69-71). -/
def column_has_code (sheet : Sheet) (header_rows : List Nat) (col : Nat) : Bool :=
  header_rows.any (fun row =>
    if sheet.maxRow < row then false
    else
      let v := get_merged_parent sheet row col
      !(cellBlank v) && pyUpper (pyStrip v.pyStr) == "CODE")

/-- Headers table of `_parse_sheets` (line 72): per column, the hierarchy
joined by the separator, or `none` for an empty hierarchy. -/
def sheet_headers (sheet : Sheet) (header_rows : List Nat) : List (Nat × Option String) :=
  (pyRange 1 (sheet.maxCol + 1)).map (fun col =>
    let hierarchy := header_hierarchy sheet header_rows col
    (col, if hierarchy.isEmpty then (Option.none : Option String)
          else some (joinSep " > " hierarchy)))

/-- Primary-key column selection (lines 76-77): column 2 when there are
exactly two CODE columns, or exactly one located at column 2; else column 1. -/
def primary_key_col_calc (sheet : Sheet) (header_rows : List Nat) : Nat :=
  let code_columns := (pyRange 1 (sheet.maxCol + 1)).filter (column_has_code sheet header_rows)
  if code_columns.length == 2 || (code_columns.length == 1 && decide (2 ∈ code_columns))
  then 2 else 1

/-- Data-row computation (lines 86-89): rows in
`range(header_rows[-1] + 1, max_row + 1)` not among the header rows, the
repeating-header rows or the sector rows, and before the glossary boundary
when one exists. -/
def data_rows_calc (sheet : Sheet) (header_rows repeating_headers sector_rows : List Nat)
    (glossary_start : Option Nat) : List Nat :=
  let exclude_rows := header_rows ++ repeating_headers ++ sector_rows
  (pyRange (header_rows.getLastD 0 + 1) (sheet.maxRow + 1)).filter (fun r =>
    !(decide (r ∈ exclude_rows)) &&
      (match glossary_start with
       | some g => decide (r < g)
       | Option.none => true))

/-- The per-sheet record produced by `_parse_sheets`. -/
structure SheetInfo where
  sheet : Sheet
  headers : List (Nat × Option String)
  header_rows : List Nat
  sectors : List (Nat × String)
  data_rows : List Nat
  primary_key_col : Nat

/-- Body of the `_parse_sheets` loop for one sheet (lines 52-99), with
`is_multirow` the externally computed `sheet_name == detect_multirow_sheet(wb)`
flag. The fixed evaluation order of the source is kept: repeating headers,
then the glossary with an empty sector list, then sectors bounded by the
glossary, then the data rows. -/
def parse_sheet (sheet : Sheet) (is_multirow : Bool) : SheetInfo :=
  let header_rows := sheet_header_rows sheet is_multirow
  let repeating_headers := find_repeating_headers sheet header_rows
  let glossary_start := detect_glossary sheet header_rows repeating_headers []
  let sectors := detect_sectors sheet glossary_start
  { sheet := sheet
    headers := sheet_headers sheet header_rows
    header_rows := header_rows
    sectors := sectors
    data_rows := data_rows_calc sheet header_rows repeating_headers (sectors.map (·.1))
      glossary_start
    primary_key_col := primary_key_col_calc sheet header_rows }

/-- `_parse_sheets` over a workbook: every sheet parsed with its multirow
flag. -/
def parse_sheets (wb : Workbook) : List (String × SheetInfo) :=
  wb.sheets.map (fun p => (p.1, parse_sheet p.2 (p.1 == detect_multirow_sheet wb)))

/-! ## Structural lemmas on the parsed sheet model -/

theorem data_rows_calc_spec (sheet : Sheet) (header_rows repeating_headers sector_rows : List Nat)
    (glossary_start : Option Nat) (r : Nat)
    (hr : r ∈ data_rows_calc sheet header_rows repeating_headers sector_rows glossary_start) :
    r ∉ header_rows ∧ r ∉ repeating_headers ∧ r ∉ sector_rows ∧
      ∀ g, glossary_start = some g → r < g := by
  unfold data_rows_calc at hr
  rw [List.mem_filter] at hr
  obtain ⟨-, hcond⟩ := hr
  rw [Bool.and_eq_true, Bool.not_eq_true', decide_eq_false_iff_not] at hcond
  obtain ⟨hnot, hglos⟩ := hcond
  simp only [List.mem_append, not_or] at hnot
  refine ⟨hnot.1.1, hnot.1.2, hnot.2, ?_⟩
  intro g hg
  rw [hg] at hglos
  simpa using hglos

theorem hierarchy_dedup_go_spec (sheet : Sheet) (col : Nat) :
    ∀ (rows : List Nat) (acc : List String), acc.Nodup →
      (header_hierarchy_dedup_go sheet col rows acc).Nodup ∧
      ∀ label, label ∈ header_hierarchy_dedup_go sheet col rows acc ↔
        label ∈ acc ∨ label ∈ header_hierarchy sheet rows col := by
  intro rows
  induction rows with
  | nil =>
      intro acc hacc
      refine ⟨hacc, ?_⟩
      intro label
      simp [header_hierarchy_dedup_go, header_hierarchy]
  | cons row rest ih =>
      intro acc hacc
      by_cases hrow : sheet.maxRow < row
      · have hstep : header_hierarchy_dedup_go sheet col (row :: rest) acc =
            header_hierarchy_dedup_go sheet col rest acc := by
          simp [header_hierarchy_dedup_go, hrow]
        have hh : header_hierarchy sheet (row :: rest) col =
            header_hierarchy sheet rest col := by
          simp [header_hierarchy, List.filterMap_cons, hrow]
        rw [hstep, hh]
        exact ih acc hacc
      · by_cases hblank : cellBlank (get_merged_parent sheet row col)
        · have hstep : header_hierarchy_dedup_go sheet col (row :: rest) acc =
              header_hierarchy_dedup_go sheet col rest acc := by
            simp [header_hierarchy_dedup_go, hrow, hblank]
          have hh : header_hierarchy sheet (row :: rest) col =
              header_hierarchy sheet rest col := by
            simp [header_hierarchy, List.filterMap_cons, hrow, hblank]
          rw [hstep, hh]
          exact ih acc hacc
        · have hh : header_hierarchy sheet (row :: rest) col =
              pyStrip (get_merged_parent sheet row col).pyStr ::
                header_hierarchy sheet rest col := by
            simp [header_hierarchy, List.filterMap_cons, hrow, hblank]
          by_cases hmem : pyStrip (get_merged_parent sheet row col).pyStr ∈ acc
          · have hstep : header_hierarchy_dedup_go sheet col (row :: rest) acc =
                header_hierarchy_dedup_go sheet col rest acc := by
              simp [header_hierarchy_dedup_go, hrow, hblank, hmem]
            rw [hstep, hh]
            obtain ⟨h1, h2⟩ := ih acc hacc
            refine ⟨h1, ?_⟩
            intro label
            rw [h2 label, List.mem_cons]
            constructor
            · tauto
            · rintro (h | h | h)
              · exact Or.inl h
              · exact Or.inl (h ▸ hmem)
              · exact Or.inr h
          · have hstep : header_hierarchy_dedup_go sheet col (row :: rest) acc =
                header_hierarchy_dedup_go sheet col rest
                  (acc ++ [pyStrip (get_merged_parent sheet row col).pyStr]) := by
              simp [header_hierarchy_dedup_go, hrow, hblank, hmem]
            have hacc2 : (acc ++ [pyStrip (get_merged_parent sheet row col).pyStr]).Nodup := by
              simp [List.nodup_append, hacc, hmem]
            rw [hstep, hh]
            obtain ⟨h1, h2⟩ := ih _ hacc2
            refine ⟨h1, ?_⟩
            intro label
            rw [h2 label, List.mem_cons]
            simp only [List.mem_append, List.mem_singleton]
            tauto

/-! ## Concrete sheets used as counterexamples and witnesses -/

/-- Cells of a sheet with a one-row header at row 1, a repeated header band at
row 3 and ordinary data at rows 2, 4, 5. -/
def c2cells : Nat → Nat → CellVal
  | 1, 1 => .str "CODE"
  | 1, 2 => .str "P/E"
  | 2, 1 => .str "AAA"
  | 2, 2 => .num 1
  | 3, 1 => .str "CODE"
  | 3, 2 => .str "P/E"
  | 4, 1 => .str "BBB"
  | 4, 2 => .num 2
  | 5, 1 => .str "CCC"
  | 5, 2 => .num 3
  | _, _ => .none

def c2sheet : Sheet := { cells := c2cells, maxRow := 5, maxCol := 2, merged := [] }

/-- Cells of a single-column sheet whose second row reproduces the one-row
header of row 1, with `max_row = 3`. -/
def c8cells : Nat → Nat → CellVal
  | 1, 1 => .str "H"
  | 2, 1 => .str "H"
  | 3, 1 => .str "x"
  | _, _ => .none

def c8sheet : Sheet := { cells := c8cells, maxRow := 3, maxCol := 1, merged := [] }

/-- Cells of a single-column multirow sheet whose A1:A2 merged region spans
both header rows, so the same anchor value is seen on each header row. -/
def c7cells : Nat → Nat → CellVal
  | 1, 1 => .str "X"
  | 3, 1 => .str "AAA"
  | _, _ => .none

def c7sheet : Sheet :=
  { cells := c7cells, maxRow := 3, maxCol := 1,
    merged := [{ minRow := 1, maxRow := 2, minCol := 1, maxCol := 1 }] }

/-! ## C2 — data rows versus excluded rows -/

/-- C2 counterexample: the claimed invariant
`data_rows ∩ {r+1 : r ∈ repeating_header_rows} = ∅` fails on `c2sheet`:
row 3 is a repeating-header row, yet its successor row 4 is a data row. -/
theorem c2_counterexample :
    3 ∈ find_repeating_headers c2sheet ((parse_sheet c2sheet false).header_rows) ∧
    3 + 1 ∈ (parse_sheet c2sheet false).data_rows := by
  decide

/-- C2 (amended): every data row of a parsed sheet avoids the header rows,
the repeating-header rows, the sector-marker rows, and every row at or after
the glossary boundary; the successor `r+1` of a repeating-header row `r` is
not excluded (see the counterexample). -/
theorem c2_data_rows_disjoint (sheet : Sheet) (is_multirow : Bool) (r : Nat)
    (hr : r ∈ (parse_sheet sheet is_multirow).data_rows) :
    r ∉ (parse_sheet sheet is_multirow).header_rows ∧
    r ∉ find_repeating_headers sheet (parse_sheet sheet is_multirow).header_rows ∧
    r ∉ ((parse_sheet sheet is_multirow).sectors.map Prod.fst) ∧
    ∀ g, detect_glossary sheet (parse_sheet sheet is_multirow).header_rows
        (find_repeating_headers sheet (parse_sheet sheet is_multirow).header_rows) [] =
        some g → r < g :=
  data_rows_calc_spec sheet _ _ _ _ r hr

/-- C2 witness: the amended theorem applied to the concrete sheet at data
row 2. -/
theorem c2_witness :
    2 ∈ (parse_sheet c2sheet false).data_rows ∧
    (2 ∉ (parse_sheet c2sheet false).header_rows ∧
     2 ∉ find_repeating_headers c2sheet (parse_sheet c2sheet false).header_rows ∧
     2 ∉ ((parse_sheet c2sheet false).sectors.map Prod.fst) ∧
     ∀ g, detect_glossary c2sheet (parse_sheet c2sheet false).header_rows
        (find_repeating_headers c2sheet (parse_sheet c2sheet false).header_rows) [] =
        some g → 2 < g) :=
  ⟨by decide, c2_data_rows_disjoint c2sheet false 2 (by decide)⟩

/-! ## C7 — header hierarchy de-duplication -/

/-- C7 counterexample: in the stored `_parse_sheets` hierarchy a label equal
to one already collected IS appended a second time: with a merged anchor
spanning both header rows of the multirow sheet `c7sheet`, the stored
hierarchy of column 1 is `["X", "X"]` and the stored header label is
`"X > X"`. -/
theorem c7_counterexample :
    header_hierarchy c7sheet [1, 2] 1 = ["X", "X"] ∧
    ¬ (header_hierarchy c7sheet [1, 2] 1).Nodup ∧
    (parse_sheet c7sheet true).header_rows = [1, 2] ∧
    (parse_sheet c7sheet true).headers = [(1, some "X > X")] := by
  decide

/-- C7 (amended): the de-duplicated, ordered hierarchy is the one printed by
DebugHeader.print_sheet_headers — it has no duplicates and contains exactly
the labels of the stored `_parse_sheets` hierarchy, which itself appends
every non-blank stripped merged-anchor value without de-duplication. -/
theorem c7_hierarchy_dedup_spec (sheet : Sheet) (header_rows : List Nat) (col : Nat) :
    (header_hierarchy_dedup sheet header_rows col).Nodup ∧
    ∀ label, label ∈ header_hierarchy_dedup sheet header_rows col ↔
      label ∈ header_hierarchy sheet header_rows col := by
  have h := hierarchy_dedup_go_spec sheet col header_rows [] List.nodup_nil
  refine ⟨h.1, ?_⟩
  intro label
  unfold header_hierarchy_dedup
  rw [h.2 label]
  simp

/-! ## C8 — repeating-header scan -/

/-- C8 counterexample: on `c8sheet` (`max_row = 3`) row 2 lies immediately
after the one-row header band, is at position `max_row - 1`, and its one-row
band signature equals the header signature, yet `find_repeating_headers`
records nothing: the Python scan `range(base_header_rows[-1] + 1, max_row - 1)`
stops before `max_row - 1`. -/
theorem c8_counterexample :
    extract_header_signature c8sheet (List.range' 2 1) =
      extract_header_signature c8sheet [1] ∧
    2 = c8sheet.maxRow - 1 ∧
    find_repeating_headers c8sheet [1] = [] := by
  decide

/-- C8 (amended): a row is recorded as a repeating header exactly when it lies
in `[band_end + 1, max_row - 2]` (the Python half-open
`range(band_end + 1, max_row - 1)`) and its same-height band signature equals
the header band's signature; all such occurrences are recorded, not just the
first. -/
theorem c8_repeating_rows_iff (sheet : Sheet) (base_header_rows : List Nat) (r : Nat) :
    r ∈ find_repeating_headers sheet base_header_rows ↔
      base_header_rows.getLastD 0 + 1 ≤ r ∧ r + 1 < sheet.maxRow ∧
      extract_header_signature sheet (List.range' r base_header_rows.length) =
        extract_header_signature sheet base_header_rows := by
  unfold find_repeating_headers
  rw [List.mem_filter, mem_pyRange]
  simp only [decide_eq_true_eq]
  constructor
  · rintro ⟨⟨h1, h2⟩, h3⟩
    exact ⟨h1, by omega, h3⟩
  · rintro ⟨h1, h2, h3⟩
    exact ⟨⟨h1, by omega⟩, h3⟩

/-! ## _find_column_across_sheets (New_app lines 114-152) -/

/-- Search-term variants tried by `_find_column_across_sheets` (lines
118-123): the keyword itself, without spaces, with spaces replaced by dots,
and its first word. -/
def search_terms (keyword : String) : List String :=
  [keyword, removeChar keyword ' ', replaceChar keyword ' ' '.', firstWord keyword]

/-- Top-level hierarchy segment of a header label:
`header.split(' > ')[0] if ' > ' in header else header` (line 132). -/
def main_metric_of (header : String) : String :=
  if containsSeq " > " header then takeBeforeSeq " > " header else header

/-- Term/header canonicalization of lines 134 and 138: lower-case, drop
spaces. -/
def normalized_no_space (s : String) : String := removeChar (pyLower s) ' '

/-- Column scan of one sheet (lines 129-144): accumulate non-P/E matches and
P/E-normalized matches in separate buckets, in column order; a column with a
falsy (absent or empty-string) header is skipped; the first matching search
term decides the bucket. -/
def find_column_in_sheet (sheet_name : String) (headers : List (Nat × Option String))
    (keyword : String) :
    List (String × Nat × String) × List (String × Nat × String) :=
  headers.foldl (fun acc ch =>
    match ch.2 with
    | Option.none => acc
    | some header =>
        if header = "" then acc
        else
          let normalized_header := normalized_no_space (main_metric_of header)
          match (search_terms keyword).find?
              (fun term => normalized_no_space term == normalized_header) with
          | Option.none => acc
          | some term =>
              if normalized_no_space term == "pe"
              then (acc.1, acc.2 ++ [(sheet_name, ch.1, header)])
              else (acc.1 ++ [(sheet_name, ch.1, header)], acc.2)) ([], [])

/-- `min(pe_columns, key=column index)` (line 148): Python `min` returns the
first minimum. -/
def earliest_pe : List (String × Nat × String) → Option (String × Nat × String)
  | [] => Option.none
  | x :: xs => some (xs.foldl (fun best y => if y.2.1 < best.2.1 then y else best) x)

/-- `_find_column_across_sheets` (lines 114-152): per sheet, the non-P/E
matches in column order followed by the single earliest P/E column when P/E
matched. -/
def find_column_across_sheets (infos : List (String × SheetInfo)) (keyword : String) :
    List (String × Nat × String) :=
  infos.foldl (fun results p =>
    let buckets := find_column_in_sheet p.1 p.2.headers keyword
    match earliest_pe buckets.2 with
    | Option.none => results ++ buckets.1
    | some pe => results ++ buckets.1 ++ [pe]) []

/-- Column selection `[col for sheet, col, _ in matches if sheet == sheet_name]`
used by `_handle_sector_metric` (line 257), `_handle_general_metric` (line
381), `_find_best_stock` (line 446), `_compare_mixed_entities` (line 806) and
the lowest/highest/best-metric and range handlers. -/
def columns_for_sheet (infos : List (String × SheetInfo)) (sheet_name keyword : String) :
    List Nat :=
  (find_column_across_sheets infos keyword).filterMap (fun m =>
    if m.1 == sheet_name then some m.2.1 else Option.none)

/-- Column selection of `_compare_stocks` (lines 719-720): matches of the
target sheet whose full header label does not contain a percent sign. -/
def columns_for_compare_stocks (infos : List (String × SheetInfo))
    (sheet_name keyword : String) : List Nat :=
  (find_column_across_sheets infos keyword).filterMap (fun m =>
    if m.1 == sheet_name && !(containsChar m.2.2 '%') then some m.2.1 else Option.none)

/-! ## C10 — the percent filter of _compare_stocks -/

/-- C10: a matched column of the target sheet is selected by `_compare_stocks`
exactly when its full header label contains no percent sign, while the column
selection shared by the sector-metric, general-average, best-stock and
mixed-comparison operations keeps every matched column of the target sheet,
with no percent filter. -/
theorem c10_pct_filter (infos : List (String × SheetInfo)) (sheet_name keyword : String)
    (c : Nat) :
    (c ∈ columns_for_compare_stocks infos sheet_name keyword ↔
      ∃ h, (sheet_name, c, h) ∈ find_column_across_sheets infos keyword ∧
        containsChar h '%' = false) ∧
    (c ∈ columns_for_sheet infos sheet_name keyword ↔
      ∃ h, (sheet_name, c, h) ∈ find_column_across_sheets infos keyword) := by
  constructor
  · rw [columns_for_compare_stocks, List.mem_filterMap]
    constructor
    · rintro ⟨⟨s, col, h⟩, hmem, hval⟩
      simp only [Bool.and_eq_true, beq_iff_eq, Bool.not_eq_true'] at hval
      by_cases hs : s = sheet_name
      · by_cases hp : containsChar h '%' = false
        · rw [if_pos (by simp [hs, hp])] at hval
          obtain ⟨rfl⟩ : col = c := by simpa using hval
          exact ⟨h, hs ▸ hmem, hp⟩
        · rw [if_neg (by simp [hp])] at hval
          exact absurd hval (by simp)
      · rw [if_neg (by simp [hs])] at hval
        exact absurd hval (by simp)
    · rintro ⟨h, hmem, hp⟩
      exact ⟨(sheet_name, c, h), hmem, by simp [hp]⟩
  · rw [columns_for_sheet, List.mem_filterMap]
    constructor
    · rintro ⟨⟨s, col, h⟩, hmem, hval⟩
      by_cases hs : s = sheet_name
      · rw [if_pos (by simp [hs])] at hval
        obtain ⟨rfl⟩ : col = c := by simpa using hval
        exact ⟨h, hs ▸ hmem⟩
      · rw [if_neg (by simp [hs])] at hval
        exact absurd hval (by simp)
    · rintro ⟨h, hmem⟩
      exact ⟨(sheet_name, c, h), hmem, by simp⟩

/-! ## _find_company (New_app lines 154-175) -/

/-- Row test of the first (exact, case-sensitive) loop of `_find_company`
(line 164): `cell_value and str(cell_value).strip() == code`. -/
def exact_code_match (sheet : Sheet) (col : Nat) (code : String) (row : Nat) : Bool :=
  (sheet.cells row col).truthy && pyStrip (sheet.cells row col).pyStr == code

/-- Row test of the fallback loop of `_find_company` (line 172):
`cell_value and str(cell_value).strip().upper() == base_code.upper()`. -/
def ci_code_match (sheet : Sheet) (col : Nat) (base_upper : String) (row : Nat) : Bool :=
  (sheet.cells row col).truthy && pyUpper (pyStrip (sheet.cells row col).pyStr) == base_upper

/-- A Python `for`-loop returning the first row satisfying the test. -/
def find_row (p : Nat → Bool) : List Nat → Option Nat
  | [] => Option.none
  | r :: rest => if p r then some r else find_row p rest

/-- `_find_company` (lines 154-175): strip the query code; scan the data rows
for the first exact, case-sensitive match on the stripped primary-key cell
text; on failure, when the code contains a dot, rescan case-insensitively for
the prefix before the first dot; else not found. -/
def find_company (info : SheetInfo) (code0 : String) : Option Nat :=
  match find_row (exact_code_match info.sheet info.primary_key_col (pyStrip code0))
      info.data_rows with
  | some row => some row
  | Option.none =>
      if containsChar (pyStrip code0) '.' then
        find_row (ci_code_match info.sheet info.primary_key_col
          (pyUpper (takeBeforeSeq "." (pyStrip code0)))) info.data_rows
      else Option.none

theorem find_row_eq_some (p : Nat → Bool) :
    ∀ (l : List Nat) (r : Nat),
      find_row p l = some r ↔
        ∃ l1 l2, l = l1 ++ r :: l2 ∧ p r = true ∧ ∀ x ∈ l1, p x = false := by
  intro l
  induction l with
  | nil =>
      intro r
      constructor
      · intro h
        simp [find_row] at h
      · rintro ⟨l1, l2, h, -, -⟩
        exact absurd h (by simp)
  | cons a rest ih =>
      intro r
      by_cases hp : p a = true
      · simp only [find_row, if_pos hp, Option.some_inj]
        constructor
        · rintro rfl
          exact ⟨[], rest, rfl, hp, by simp⟩
        · rintro ⟨l1, l2, heq, hr, hfirst⟩
          match l1, heq with
          | [], heq =>
              obtain ⟨rfl, -⟩ : r = a ∧ l2 = rest := by
                constructor
                · exact (by simpa using heq : a = r ∧ rest = l2).1.symm
                · exact (by simpa using heq : a = r ∧ rest = l2).2.symm
              rfl
          | b :: l1, heq =>
              obtain ⟨rfl, -⟩ : a = b ∧ rest = l1 ++ r :: l2 := by simpa using heq
              exact absurd hp (by simp [hfirst a (by simp)])
      · simp only [find_row, if_neg hp]
        rw [ih r]
        constructor
        · rintro ⟨l1, l2, rfl, hr, hfirst⟩
          refine ⟨a :: l1, l2, rfl, hr, ?_⟩
          intro x hx
          rcases List.mem_cons.mp hx with rfl | hx
          · simpa using hp
          · exact hfirst x hx
        · rintro ⟨l1, l2, heq, hr, hfirst⟩
          match l1, heq with
          | [], heq =>
              obtain ⟨rfl, -⟩ : a = r ∧ rest = l2 := by simpa using heq
              exact absurd hr hp
          | b :: l1, heq =>
              obtain ⟨rfl, hrest⟩ : a = b ∧ rest = l1 ++ r :: l2 := by simpa using heq
              exact ⟨l1, l2, hrest, hr, fun x hx => hfirst x (by simp [hx])⟩

theorem find_row_eq_none (p : Nat → Bool) :
    ∀ l : List Nat, find_row p l = Option.none ↔ ∀ x ∈ l, p x = false := by
  intro l
  induction l with
  | nil => simp [find_row]
  | cons a rest ih =>
      by_cases hp : p a = true
      · simp [find_row, hp]
      · simp only [find_row, if_neg hp, ih]
        constructor
        · intro h x hx
          rcases List.mem_cons.mp hx with rfl | hx
          · simpa using hp
          · exact h x hx
        · intro h x hx
          exact h x (by simp [hx])

theorem find_row_congr {p q : Nat → Bool} :
    ∀ l : List Nat, (∀ x ∈ l, p x = q x) → find_row p l = find_row q l := by
  intro l
  induction l with
  | nil => intro _; rfl
  | cons a rest ih =>
      intro h
      have ha : p a = q a := h a (by simp)
      by_cases hp : q a = true
      · simp [find_row, ha, hp]
      · rw [find_row, find_row, ha, if_neg hp, if_neg hp]
        exact ih (fun x hx => h x (by simp [hx]))

theorem pairwise_lt_range1 : ∀ (n s : Nat), (List.range' s n).Pairwise (· < ·) := by
  intro n
  induction n with
  | zero => intro s; simp
  | succ n ih =>
      intro s
      rw [List.range'_succ]
      refine List.Pairwise.cons ?_ (ih (s + 1))
      intro x hx
      have h := (List.mem_range'_1.mp hx).1
      omega

theorem pairwise_lt_pyRange (a b : Nat) : (pyRange a b).Pairwise (· < ·) :=
  pairwise_lt_range1 (b - a) a

/-! ## C4 — company lookup -/

/-- C4: company lookup (i) operates on the parsed data rows, which are in
strictly ascending order; (ii) returns the first row whose stripped
primary-key cell text equals the stripped query code case-sensitively, with
no earlier row matching; (iii) when no row matches exactly, it retries
case-insensitively with the prefix before the first dot when the code
contains a dot, else reports not found; (iv) a query for "ABL.N0000" resolves
to the same (existing) row as a query for "ABL" when the bare code alone is
present in the primary-key column; and (v) resolves to the extended code's
own first-match row when the extended code exists verbatim. -/
theorem c4_company_lookup :
    (∀ (sheet : Sheet) (m : Bool), ((parse_sheet sheet m).data_rows).Pairwise (· < ·)) ∧
    (∀ (info : SheetInfo) (code : String) (r : Nat),
       find_row (exact_code_match info.sheet info.primary_key_col (pyStrip code))
           info.data_rows = some r →
       find_company info code = some r ∧
       ∃ l1 l2, info.data_rows = l1 ++ r :: l2 ∧
         exact_code_match info.sheet info.primary_key_col (pyStrip code) r = true ∧
         ∀ x ∈ l1, exact_code_match info.sheet info.primary_key_col (pyStrip code) x = false) ∧
    (∀ (info : SheetInfo) (code : String),
       (∀ x ∈ info.data_rows,
          exact_code_match info.sheet info.primary_key_col (pyStrip code) x = false) →
       find_company info code =
         (if containsChar (pyStrip code) '.' = true then
            find_row (ci_code_match info.sheet info.primary_key_col
              (pyUpper (takeBeforeSeq "." (pyStrip code)))) info.data_rows
          else Option.none)) ∧
    (∀ info : SheetInfo,
       (∀ x ∈ info.data_rows,
          exact_code_match info.sheet info.primary_key_col "ABL.N0000" x = false) →
       (∀ x ∈ info.data_rows,
          ci_code_match info.sheet info.primary_key_col "ABL" x =
            exact_code_match info.sheet info.primary_key_col "ABL" x) →
       (∃ x ∈ info.data_rows,
          exact_code_match info.sheet info.primary_key_col "ABL" x = true) →
       find_company info "ABL.N0000" = find_company info "ABL" ∧
         (find_company info "ABL").isSome = true) ∧
    (∀ info : SheetInfo,
       (∃ x ∈ info.data_rows,
          exact_code_match info.sheet info.primary_key_col "ABL.N0000" x = true) →
       find_company info "ABL.N0000" =
         find_row (exact_code_match info.sheet info.primary_key_col "ABL.N0000")
           info.data_rows) := by
  refine ⟨?_, ?_, ?_, ?_, ?_⟩
  · intro sheet m
    exact List.Pairwise.sublist (List.filter_sublist _) (pairwise_lt_pyRange _ _)
  · intro info code r h
    refine ⟨?_, (find_row_eq_some _ _ _).mp h⟩
    unfold find_company
    rw [h]
  · intro info code h
    have hnone : find_row (exact_code_match info.sheet info.primary_key_col (pyStrip code))
        info.data_rows = Option.none := (find_row_eq_none _ _).mpr h
    unfold find_company
    rw [hnone]
  · intro info hno honly hex
    have hstrip : pyStrip "ABL.N0000" = "ABL.N0000" := by decide
    have hdot : containsChar "ABL.N0000" '.' = true := by decide
    have hbase : pyUpper (takeBeforeSeq "." "ABL.N0000") = "ABL" := by decide
    have hstrip2 : pyStrip "ABL" = "ABL" := by decide
    have hnone : find_row (exact_code_match info.sheet info.primary_key_col "ABL.N0000")
        info.data_rows = Option.none := (find_row_eq_none _ _).mpr hno
    have hsome : ∃ s, find_row (exact_code_match info.sheet info.primary_key_col "ABL")
        info.data_rows = some s := by
      obtain ⟨x, hx, hxm⟩ := hex
      rcases hfr : find_row (exact_code_match info.sheet info.primary_key_col "ABL")
          info.data_rows with - | s
      · exact absurd hxm (by simp [(find_row_eq_none _ _).mp hfr x hx])
      · exact ⟨s, rfl⟩
    obtain ⟨s, hs⟩ := hsome
    have h1 : find_company info "ABL.N0000" =
        find_row (ci_code_match info.sheet info.primary_key_col "ABL") info.data_rows := by
      unfold find_company
      rw [hstrip, hnone, if_pos hdot, hbase]
    have h2 : find_company info "ABL" = some s := by
      unfold find_company
      rw [hstrip2, hs]
    refine ⟨?_, by rw [h2]; rfl⟩
    rw [h1, h2, ← hs]
    exact find_row_congr _ honly
  · intro info hex
    have hstrip : pyStrip "ABL.N0000" = "ABL.N0000" := by decide
    have hsome : ∃ s, find_row (exact_code_match info.sheet info.primary_key_col "ABL.N0000")
        info.data_rows = some s := by
      obtain ⟨x, hx, hxm⟩ := hex
      rcases hfr : find_row (exact_code_match info.sheet info.primary_key_col "ABL.N0000")
          info.data_rows with - | s
      · exact absurd hxm (by simp [(find_row_eq_none _ _).mp hfr x hx])
      · exact ⟨s, rfl⟩
    obtain ⟨s, hs⟩ := hsome
    unfold find_company
    rw [hstrip, hs]

/-- Cells of a sheet whose primary-key column holds the bare code ABL only. -/
def c4cells : Nat → Nat → CellVal
  | 2, 1 => .str "ABL"
  | 2, 2 => .num 5
  | 3, 1 => .str "XYZ"
  | 3, 2 => .num 6
  | _, _ => .none

def c4info : SheetInfo :=
  { sheet := { cells := c4cells, maxRow := 3, maxCol := 2, merged := [] }
    headers := [(1, some "CODE"), (2, some "P/E")]
    header_rows := [1]
    sectors := []
    data_rows := [2, 3]
    primary_key_col := 1 }

/-- Cells of a sheet whose primary-key column holds the extended code
verbatim. -/
def c4bcells : Nat → Nat → CellVal
  | 2, 1 => .str "ABL.N0000"
  | 2, 2 => .num 5
  | _, _ => .none

def c4binfo : SheetInfo :=
  { sheet := { cells := c4bcells, maxRow := 2, maxCol := 2, merged := [] }
    headers := [(1, some "CODE"), (2, some "P/E")]
    header_rows := [1]
    sectors := []
    data_rows := [2]
    primary_key_col := 1 }

/-- C4 witness: on a sheet holding only the bare code, "ABL.N0000" and "ABL"
resolve to the same existing row; on a sheet holding the extended code
verbatim, "ABL.N0000" resolves to its own first-match row. -/
theorem c4_witness :
    (find_company c4info "ABL.N0000" = find_company c4info "ABL" ∧
      (find_company c4info "ABL").isSome = true) ∧
    find_company c4binfo "ABL.N0000" =
      find_row (exact_code_match c4binfo.sheet c4binfo.primary_key_col "ABL.N0000")
        c4binfo.data_rows :=
  ⟨c4_company_lookup.2.2.2.1 c4info (by decide) (by decide) (by decide),
   c4_company_lookup.2.2.2.2 c4binfo (by decide)⟩

/-! ## _get_sector_rows (lines 177-189) and the average computations -/

/-- Loop of `_get_sector_rows` over the enumerated sector markers: on the
first marker whose upper-cased name equals the (upper-cased, stripped) query
code, the data rows strictly between it and the next marker (or `max_row + 1`
after the last marker). -/
def get_sector_rows_go (data_rows : List Nat) (max_row : Nat) (sector_code : String) :
    List (Nat × String) → Option (List Nat)
  | [] => Option.none
  | (sector_row, sector_name) :: rest =>
      if pyUpper sector_name == sector_code then
        let next_sector_row :=
          match rest with
          | [] => max_row + 1
          | (r2, _) :: _ => r2
        some (data_rows.filter (fun r => decide (sector_row < r) && decide (r < next_sector_row)))
      else get_sector_rows_go data_rows max_row sector_code rest

/-- `_get_sector_rows` (lines 177-189): `[]` when no marker matches. -/
def get_sector_rows (info : SheetInfo) (sector_code : String) : List Nat :=
  match get_sector_rows_go info.data_rows info.sheet.maxRow (pyStrip (pyUpper sector_code))
      info.sectors with
  | some rows => rows
  | Option.none => []

/-- Double loop of `_compute_sector_average` (lines 300-304): append, in row
then column order, every cell value that is numeric; non-numeric and blank
cells are skipped. -/
def values_loop (sheet : Sheet) (columns : List Nat) (rows : List Nat) : List ℚ :=
  rows.foldl (fun values row =>
    columns.foldl (fun values col =>
      match (sheet.cells row col).toNum with
      | some v => values ++ [v]
      | Option.none => values) values) []

/-- The numeric-typed subset of the cells visited on the given rows and
columns, in visit order. -/
def numeric_cells (sheet : Sheet) (columns : List Nat) (rows : List Nat) : List ℚ :=
  rows.flatMap (fun row => columns.filterMap (fun col => (sheet.cells row col).toNum))

theorem values_loop_inner_eq (sheet : Sheet) (row : Nat) :
    ∀ (columns : List Nat) (acc : List ℚ),
      columns.foldl (fun values col =>
        match (sheet.cells row col).toNum with
        | some v => values ++ [v]
        | Option.none => values) acc =
      acc ++ columns.filterMap (fun col => (sheet.cells row col).toNum) := by
  intro columns
  induction columns with
  | nil => intro acc; simp
  | cons c rest ih =>
      intro acc
      rw [List.foldl_cons, List.filterMap_cons]
      rcases h : (sheet.cells row c).toNum with - | v
      · simp only [h]
        exact ih acc
      · simp only [h]
        rw [ih (acc ++ [v])]
        simp

theorem values_loop_eq (sheet : Sheet) (columns : List Nat) (rows : List Nat) :
    values_loop sheet columns rows = numeric_cells sheet columns rows := by
  unfold values_loop numeric_cells
  suffices h : ∀ (rs : List Nat) (acc : List ℚ),
      rs.foldl (fun values row =>
        columns.foldl (fun values col =>
          match (sheet.cells row col).toNum with
          | some v => values ++ [v]
          | Option.none => values) values) acc =
      acc ++ rs.flatMap (fun row => columns.filterMap (fun col => (sheet.cells row col).toNum)) by
    rw [h rows []]
    simp
  intro rs
  induction rs with
  | nil => intro acc; simp
  | cons r rest ih =>
      intro acc
      rw [List.foldl_cons, values_loop_inner_eq sheet r columns acc, List.flatMap_cons, ih]
      simp

/-- `_compute_sector_average` (lines 291-310), reduced to the numeric outcome:
the Python pair `(None, None)` is `none`, and a successful `(text, avg_value)`
pair is `some avg_value` (the first component is a format string of the
second). -/
def compute_sector_average (info : SheetInfo) (sector : String) (columns : List Nat) :
    Option ℚ :=
  if get_sector_rows info sector = [] then Option.none
  else if values_loop info.sheet columns (get_sector_rows info sector) = [] then Option.none
  else some ((values_loop info.sheet columns (get_sector_rows info sector)).sum /
    ((values_loop info.sheet columns (get_sector_rows info sector)).length : ℚ))

/-! ## _handle_general_metric (lines 378-423) -/

/-- Python dict access `self.sheet_info[sheet_name]`; the key is always
present at the modelled call sites (the primary sheet name comes from the
workbook's own sheet list). -/
def sheet_info_get (infos : List (String × SheetInfo)) (name : String) : SheetInfo :=
  match infos.find? (fun p => p.1 == name) with
  | some p => p.2
  | Option.none =>
      { sheet := { cells := fun _ _ => CellVal.none, maxRow := 0, maxCol := 0, merged := [] }
        headers := [], header_rows := [], sectors := [], data_rows := [], primary_key_col := 1 }

/-- Loop of `_handle_general_metric` (lines 391-399): rows whose primary-key
cell is falsy are skipped entirely; for the other rows, every numeric cell of
the metric columns contributes its value and a `(code.strip(), value)` pair.
(When the key cell is truthy but not a string, Python `code.strip()` would
raise; the label is modelled as the stripped `str()` text, which no theorem
depends on.) -/
def general_values_loop (sheet : Sheet) (key_col : Nat) (columns : List Nat)
    (rows : List Nat) : List ℚ × List (String × ℚ) :=
  rows.foldl (fun acc row =>
    let code := sheet.cells row key_col
    if !code.truthy then acc
    else
      columns.foldl (fun acc col =>
        match (sheet.cells row col).toNum with
        | some v => (acc.1 ++ [v], acc.2 ++ [(pyStrip code.pyStr, v)])
        | Option.none => acc) acc) ([], [])

/-- The numeric-typed subset of the cells visited by `_handle_general_metric`:
metric-column cells of the data rows whose primary-key cell is truthy. -/
def general_numeric_cells (sheet : Sheet) (key_col : Nat) (columns : List Nat)
    (rows : List Nat) : List ℚ :=
  rows.flatMap (fun row =>
    if !(sheet.cells row key_col).truthy then []
    else columns.filterMap (fun col => (sheet.cells row col).toNum))


/-- The `(code.strip(), value)` pairs gathered by the same loop, in visit
order. -/
def general_labeled_cells (sheet : Sheet) (key_col : Nat) (columns : List Nat)
    (rows : List Nat) : List (String × ℚ) :=
  rows.flatMap (fun row =>
    if !(sheet.cells row key_col).truthy then []
    else columns.filterMap (fun col =>
      ((sheet.cells row col).toNum).map
        (fun v => (pyStrip (sheet.cells row key_col).pyStr, v))))

theorem general_values_loop_eq (sheet : Sheet) (key_col : Nat) (columns : List Nat) :
    ∀ (rows : List Nat),
      general_values_loop sheet key_col columns rows =
        (general_numeric_cells sheet key_col columns rows,
         general_labeled_cells sheet key_col columns rows) := by
  have hinner : ∀ (row : Nat) (cs : List Nat) (a : List ℚ × List (String × ℚ)),
      (cs.foldl (fun acc col =>
        match (sheet.cells row col).toNum with
        | some v => (acc.1 ++ [v], acc.2 ++ [(pyStrip (sheet.cells row key_col).pyStr, v)])
        | Option.none => acc) a) =
      (a.1 ++ cs.filterMap (fun col => (sheet.cells row col).toNum),
       a.2 ++ cs.filterMap (fun col =>
         ((sheet.cells row col).toNum).map
           (fun v => (pyStrip (sheet.cells row key_col).pyStr, v)))) := by
    intro row cs
    induction cs with
    | nil => intro a; simp
    | cons c cr ihc =>
        intro a
        rw [List.foldl_cons, List.filterMap_cons, List.filterMap_cons]
        cases h : (sheet.cells row c).toNum with
        | none =>
            simp only [h, Option.map_none']
            exact ihc a
        | some v =>
            simp only [h, Option.map_some']
            rw [ihc _]
            simp
  have hgen : ∀ (rows : List Nat) (acc : List ℚ × List (String × ℚ)),
      (rows.foldl (fun acc row =>
        let code := sheet.cells row key_col
        if !code.truthy then acc
        else
          columns.foldl (fun acc col =>
            match (sheet.cells row col).toNum with
            | some v => (acc.1 ++ [v], acc.2 ++ [(pyStrip code.pyStr, v)])
            | Option.none => acc) acc) acc) =
      (acc.1 ++ general_numeric_cells sheet key_col columns rows,
       acc.2 ++ general_labeled_cells sheet key_col columns rows) := by
    intro rows
    induction rows with
    | nil =>
        intro acc
        simp [general_numeric_cells, general_labeled_cells]
    | cons r rest ih =>
        intro acc
        rw [List.foldl_cons]
        unfold general_numeric_cells general_labeled_cells
        rw [List.flatMap_cons, List.flatMap_cons]
        by_cases ht : (sheet.cells r key_col).truthy
        · simp only [ht, Bool.not_true, Bool.false_eq_true, if_false, hinner r columns acc, ih]
          unfold general_numeric_cells general_labeled_cells
          simp
        · simp only [ht, Bool.not_false, if_true, ih acc]
          unfold general_numeric_cells general_labeled_cells
          simp [ht]
  intro rows
  unfold general_values_loop
  rw [hgen rows ([], [])]
  simp

/-- Outcome of `_handle_general_metric`, keeping the numeric content of the
produced report and dropping its `:.2f` formatting: the metric-not-found
message, the distinct no-numeric-data message (line 402), or the statistics
block (average, min, max, company count, top-5 list). -/
inductive GeneralMetricOutcome where
  | metricNotFound : GeneralMetricOutcome
  | noNumericData : GeneralMetricOutcome
  | stats : ℚ → ℚ → ℚ → Nat → List (String × ℚ) → GeneralMetricOutcome
deriving DecidableEq

/-- Python `min(values)` (values non-empty at the call site). -/
def listMinD : List ℚ → ℚ
  | [] => 0
  | x :: xs => xs.foldl min x

/-- Python `max(values)` (values non-empty at the call site). -/
def listMaxD : List ℚ → ℚ
  | [] => 0
  | x :: xs => xs.foldl max x

/-- Stable insertion for a descending sort by the numeric component. -/
def insertDescBy (x : String × ℚ) : List (String × ℚ) → List (String × ℚ)
  | [] => [x]
  | y :: ys => if y.2 ≤ x.2 then x :: y :: ys else y :: insertDescBy x ys

/-- Python `sorted(key=lambda x: x[1], reverse=True)` — stable, descending by
the numeric component. -/
def sortDescBy : List (String × ℚ) → List (String × ℚ)
  | [] => []
  | x :: xs => insertDescBy x (sortDescBy xs)

/-- Aggregation body of `_handle_general_metric` (lines 385-423) after column
resolution: the not-found outcome for an empty column list, the distinct
no-numeric-data outcome for an empty numeric collection, else the statistics
(average, min, max, count, top 5 by value). -/
def general_metric_core (info : SheetInfo) (columns : List Nat) : GeneralMetricOutcome :=
  if columns = [] then .metricNotFound
  else if (general_values_loop info.sheet info.primary_key_col columns info.data_rows).1 = []
  then .noNumericData
  else
    .stats
      ((general_values_loop info.sheet info.primary_key_col columns info.data_rows).1.sum /
        (((general_values_loop info.sheet info.primary_key_col columns
            info.data_rows).1.length : ℚ)))
      (listMinD (general_values_loop info.sheet info.primary_key_col columns
        info.data_rows).1)
      (listMaxD (general_values_loop info.sheet info.primary_key_col columns
        info.data_rows).1)
      (general_values_loop info.sheet info.primary_key_col columns info.data_rows).1.length
      ((sortDescBy
        (general_values_loop info.sheet info.primary_key_col columns info.data_rows).2).take 5)

/-- `_handle_general_metric` (lines 378-423): resolve the metric's columns on
the primary sheet, then aggregate. -/
def handle_general_metric (wb : Workbook) (metric : String) : GeneralMetricOutcome :=
  general_metric_core
    (sheet_info_get (parse_sheets wb) (detect_multirow_sheet wb))
    (columns_for_sheet (parse_sheets wb) (detect_multirow_sheet wb) metric)

/-! ## C3 — average correctness -/

/-- C3: for the sector average, the outcome is the no-data outcome (`none`)
exactly when the numeric-typed subset of the visited cells is empty — in
particular a numeric zero is never produced then — and a computed average is
exactly the arithmetic mean of that numeric subset (non-numeric and blank
cells skipped, never counted as zero). For the general metric handler with a
non-empty resolved column list, the distinct no-numeric-data outcome occurs
exactly when the numeric subset of the visited cells is empty, and reported
statistics carry the mean of exactly that subset and its size. -/
theorem c3_average_correctness :
    (∀ (info : SheetInfo) (sector : String) (columns : List Nat),
       (compute_sector_average info sector columns = Option.none ↔
         numeric_cells info.sheet columns (get_sector_rows info sector) = []) ∧
       (∀ a, compute_sector_average info sector columns = some a →
         a = (numeric_cells info.sheet columns (get_sector_rows info sector)).sum /
           ((numeric_cells info.sheet columns (get_sector_rows info sector)).length : ℚ))) ∧
    (∀ (info : SheetInfo) (columns : List Nat), columns ≠ [] →
       (general_metric_core info columns = .noNumericData ↔
         general_numeric_cells info.sheet info.primary_key_col columns info.data_rows = []) ∧
       (∀ avg mn mx n top5, general_metric_core info columns = .stats avg mn mx n top5 →
         avg = (general_numeric_cells info.sheet info.primary_key_col columns
             info.data_rows).sum /
           ((general_numeric_cells info.sheet info.primary_key_col columns
             info.data_rows).length : ℚ) ∧
         n = (general_numeric_cells info.sheet info.primary_key_col columns
           info.data_rows).length)) := by
  constructor
  · intro info sector columns
    unfold compute_sector_average
    rw [values_loop_eq]
    by_cases hrows : get_sector_rows info sector = []
    · rw [if_pos hrows]
      constructor
      · constructor
        · intro _
          simp [numeric_cells, hrows]
        · intro _
          rfl
      · intro a h
        exact absurd h (by simp)
    · rw [if_neg hrows]
      by_cases hvals : numeric_cells info.sheet columns (get_sector_rows info sector) = []
      · rw [if_pos hvals]
        constructor
        · constructor
          · intro _; exact hvals
          · intro _; rfl
        · intro a h
          exact absurd h (by simp)
      · rw [if_neg hvals]
        constructor
        · constructor
          · intro h; exact absurd h (by simp)
          · intro h; exact absurd h hvals
        · intro a h
          exact (Option.some_inj.mp h).symm
  · intro info columns hcols
    unfold general_metric_core
    rw [if_neg hcols]
    rw [show (general_values_loop info.sheet info.primary_key_col columns info.data_rows).1 =
      general_numeric_cells info.sheet info.primary_key_col columns info.data_rows from by
        rw [general_values_loop_eq]]
    by_cases hnums : general_numeric_cells info.sheet info.primary_key_col columns
        info.data_rows = []
    · rw [if_pos hnums]
      constructor
      · constructor
        · intro _; exact hnums
        · intro _; rfl
      · intro avg mn mx n top5 h
        exact absurd h (by simp)
    · rw [if_neg hnums]
      constructor
      · constructor
        · intro h
          exact absurd h (by simp)
        · intro h
          exact absurd h hnums
      · intro avg mn mx n top5 h
        injection h with h1 h2 h3 h4 h5
        exact ⟨h1.symm, h4.symm⟩

/-- Cells of a sheet with one sector of three companies whose metric column
holds two numbers and one text cell. -/
def c3cells : Nat → Nat → CellVal
  | 1, 1 => .str "CODE"
  | 1, 2 => .str "P/E"
  | 2, 1 => .str "BANKS"
  | 3, 1 => .str "AAA"
  | 3, 2 => .num 1
  | 4, 1 => .str "BBB"
  | 4, 2 => .str "n/a"
  | 5, 1 => .str "CCC"
  | 5, 2 => .num 3
  | _, _ => .none

def c3info : SheetInfo :=
  { sheet := { cells := c3cells, maxRow := 5, maxCol := 2, merged := [] }
    headers := [(1, some "CODE"), (2, some "P/E")]
    header_rows := [1]
    sectors := [(2, "BANKS")]
    data_rows := [3, 4, 5]
    primary_key_col := 1 }

/-- C3 witness: on the concrete sector holding the cells `[1, "n/a", 3]` the
numeric subset is `[1, 3]` (the text cell is skipped, not counted as zero),
and the averages computed by both loops equal the arithmetic mean of exactly
that subset. -/
theorem c3_witness :
    numeric_cells c3info.sheet [2] (get_sector_rows c3info "BANKS") = [1, 3] ∧
    (values_loop c3info.sheet [2] (get_sector_rows c3info "BANKS")).sum /
        ((values_loop c3info.sheet [2] (get_sector_rows c3info "BANKS")).length : ℚ) =
      (numeric_cells c3info.sheet [2] (get_sector_rows c3info "BANKS")).sum /
        ((numeric_cells c3info.sheet [2] (get_sector_rows c3info "BANKS")).length : ℚ) ∧
    ((general_values_loop c3info.sheet c3info.primary_key_col [2] c3info.data_rows).1.sum /
        (((general_values_loop c3info.sheet c3info.primary_key_col [2]
          c3info.data_rows).1.length : ℚ)) =
      (general_numeric_cells c3info.sheet c3info.primary_key_col [2] c3info.data_rows).sum /
        ((general_numeric_cells c3info.sheet c3info.primary_key_col [2]
          c3info.data_rows).length : ℚ) ∧
      (general_values_loop c3info.sheet c3info.primary_key_col [2]
          c3info.data_rows).1.length =
        (general_numeric_cells c3info.sheet c3info.primary_key_col [2]
          c3info.data_rows).length) :=
  ⟨by decide,
   (c3_average_correctness.1 c3info "BANKS" [2]).2 _ (by
      unfold compute_sector_average
      rw [if_neg (by decide), if_neg (by decide)]),
   (c3_average_correctness.2 c3info [2] (by decide)).2 _ _ _ _ _ (by
      unfold general_metric_core
      rw [if_neg (by decide), if_neg (by decide)])⟩

/-! ## _find_best_stock (lines 425-464) -/

/-- Default composite weights of `_find_best_stock` with no criteria (line
434): `{'P/E': 0.4, 'Div Yield': 0.3, 'PBV': -0.2}`. Any other key would be a
Python `KeyError`; the loop only ever looks up the three default metrics. -/
def default_weights : String → ℚ
  | "P/E" => 0.4
  | "Div Yield" => 0.3
  | "PBV" => -0.2
  | _ => 0

/-- Outcome of the per-row metric loop of `_find_best_stock` (lines 445-453):
a metric with no resolved columns aborts the whole handler (the early
`return` of line 448); a non-numeric value invalidates the row (line 452);
else the accumulated weighted sum. -/
inductive RowScore where
  | metricMissing : RowScore
  | invalid : RowScore
  | score : ℚ → RowScore

/-- Per-row metric loop of `_find_best_stock` (lines 445-453), reading each
metric's value from the first resolved column and accumulating
`score += value * weights[metric]`. -/
def score_row (infos : List (String × SheetInfo)) (sheet_name : String) (sheet : Sheet)
    (row : Nat) (weights : String → ℚ) : List String → ℚ → RowScore
  | [], acc => .score acc
  | metric :: rest, acc =>
      match columns_for_sheet infos sheet_name metric with
      | [] => .metricMissing
      | col :: _ =>
          match (sheet.cells row col).toNum with
          | Option.none => .invalid
          | some v =>
              score_row infos sheet_name sheet row weights rest (acc + v * weights metric)

/-- Row loop of `_find_best_stock` (lines 439-455): rows with a falsy
primary-key cell are skipped; a missing metric aborts with the
metric-not-found outcome (`none`); an invalid row contributes nothing; a
scored row contributes `(code.strip(), score)` in row order. -/
def best_stock_scores_go (infos : List (String × SheetInfo)) (sheet_name : String)
    (sheet : Sheet) (key_col : Nat) (metrics : List String) (weights : String → ℚ) :
    List Nat → Option (List (String × ℚ))
  | [] => some []
  | row :: rest =>
      if !(sheet.cells row key_col).truthy then
        best_stock_scores_go infos sheet_name sheet key_col metrics weights rest
      else
        match score_row infos sheet_name sheet row weights metrics 0 with
        | .metricMissing => Option.none
        | .invalid => best_stock_scores_go infos sheet_name sheet key_col metrics weights rest
        | .score s =>
            (best_stock_scores_go infos sheet_name sheet key_col metrics weights rest).map
              (fun scores => (pyStrip (sheet.cells row key_col).pyStr, s) :: scores)

/-- `_find_best_stock(None)` (lines 425-457) up to the final sort/top-3
formatting: the collected scores in row order, or `none` for the
metric-not-found early return. An empty scores list corresponds to the
"No valid data found to rank stocks." outcome. -/
def find_best_stock_default (wb : Workbook) : Option (List (String × ℚ)) :=
  best_stock_scores_go (parse_sheets wb) (detect_multirow_sheet wb)
    (sheet_info_get (parse_sheets wb) (detect_multirow_sheet wb)).sheet
    (sheet_info_get (parse_sheets wb) (detect_multirow_sheet wb)).primary_key_col
    ["P/E", "Div Yield", "PBV"] default_weights
    (sheet_info_get (parse_sheets wb) (detect_multirow_sheet wb)).data_rows

/-- The smaller-is-preferable metric tokens that the source itself declares in
`_find_best_metric_value` (lines 635-637). -/
def lower_is_better : List String := ["pe", "pbv", "issuedqtymn", "issued", "qty", "mn"]

theorem score_row_cons (infos : List (String × SheetInfo)) (sheet_name : String)
    (sheet : Sheet) (row : Nat) (weights : String → ℚ) (metric : String)
    (rest : List String) (acc : ℚ) :
    score_row infos sheet_name sheet row weights (metric :: rest) acc =
      match columns_for_sheet infos sheet_name metric with
      | [] => .metricMissing
      | col :: _ =>
          match (sheet.cells row col).toNum with
          | Option.none => .invalid
          | some v =>
              score_row infos sheet_name sheet row weights rest (acc + v * weights metric) :=
  rfl

/-! ## C5 — composite best-stock scoring -/

/-- C5 (amended): with no explicit criteria and all three default metrics
resolving to columns, every scored entity's score is the weighted sum over
the fixed set {P/E, Div Yield, PBV} with the fixed weights 0.4, 0.3, -0.2 —
the sign is negative only for PBV, and NOT for P/E even though the source's
own convention list declares P/E smaller-is-preferable — and an entity whose
row lacks a numeric value for any one of the three metrics is excluded from
the scoring entirely (no partial-metric scoring). -/
theorem c5_composite_scoring :
    (∀ (infos : List (String × SheetInfo)) (sheet_name : String) (sheet : Sheet)
       (key_col : Nat) (rows : List Nat) (c1 c2 c3 : Nat) (r1 r2 r3 : List Nat),
       columns_for_sheet infos sheet_name "P/E" = c1 :: r1 →
       columns_for_sheet infos sheet_name "Div Yield" = c2 :: r2 →
       columns_for_sheet infos sheet_name "PBV" = c3 :: r3 →
       best_stock_scores_go infos sheet_name sheet key_col ["P/E", "Div Yield", "PBV"]
           default_weights rows =
         some (rows.filterMap (fun row =>
           if !(sheet.cells row key_col).truthy then Option.none
           else
             match (sheet.cells row c1).toNum, (sheet.cells row c2).toNum,
                 (sheet.cells row c3).toNum with
             | some v1, some v2, some v3 =>
                 some (pyStrip (sheet.cells row key_col).pyStr,
                   0 + v1 * default_weights "P/E" + v2 * default_weights "Div Yield"
                     + v3 * default_weights "PBV")
             | _, _, _ => Option.none))) ∧
    0 < default_weights "P/E" ∧ 0 < default_weights "Div Yield" ∧
      default_weights "PBV" < 0 := by
  constructor
  · intro infos sheet_name sheet key_col rows c1 c2 c3 r1 r2 r3 h1 h2 h3
    induction rows with
    | nil => rfl
    | cons row rest ih =>
        rw [List.filterMap_cons]
        unfold best_stock_scores_go
        by_cases ht : (sheet.cells row key_col).truthy
        · simp only [ht, Bool.not_true, Bool.false_eq_true, if_false]
          have hscore : score_row infos sheet_name sheet row default_weights
              ["P/E", "Div Yield", "PBV"] 0 =
              match (sheet.cells row c1).toNum, (sheet.cells row c2).toNum,
                  (sheet.cells row c3).toNum with
              | some v1, some v2, some v3 =>
                  .score (0 + v1 * default_weights "P/E" + v2 * default_weights "Div Yield"
                    + v3 * default_weights "PBV")
              | Option.none, _, _ => .invalid
              | some _, Option.none, _ => .invalid
              | some _, some _, Option.none => .invalid := by
            rw [score_row_cons, h1]
            dsimp only
            cases hv1 : (sheet.cells row c1).toNum with
            | none => rfl
            | some v1 =>
                dsimp only
                rw [score_row_cons, h2]
                dsimp only
                cases hv2 : (sheet.cells row c2).toNum with
                | none => rfl
                | some v2 =>
                    dsimp only
                    rw [score_row_cons, h3]
                    dsimp only
                    cases hv3 : (sheet.cells row c3).toNum with
                    | none => rfl
                    | some v3 => rfl
          rw [hscore]
          cases hv1 : (sheet.cells row c1).toNum with
          | none =>
              simp only [hv1]
              exact ih
          | some v1 =>
              cases hv2 : (sheet.cells row c2).toNum with
              | none =>
                  simp only [hv1, hv2]
                  exact ih
              | some v2 =>
                  cases hv3 : (sheet.cells row c3).toNum with
                  | none =>
                      simp only [hv1, hv2, hv3]
                      exact ih
                  | some v3 =>
                      simp only [hv1, hv2, hv3, ih, Option.map_some']
        · simp only [ht, Bool.not_false, if_true]
          exact ih
  · refine ⟨by norm_num [default_weights], by norm_num [default_weights],
      by norm_num [default_weights]⟩

/-- Cells of a one-sheet workbook with stocks A (P/E 10) and B (P/E 1),
identical on Div Yield and PBV. -/
def c5cells : Nat → Nat → CellVal
  | 1, 1 => .str "CODE"
  | 1, 2 => .str "P/E"
  | 1, 3 => .str "Div Yield"
  | 1, 4 => .str "PBV"
  | 3, 1 => .str "A"
  | 3, 2 => .num 10
  | 3, 3 => .num 1
  | 3, 4 => .num 1
  | 4, 1 => .str "B"
  | 4, 2 => .num 1
  | 4, 3 => .num 1
  | 4, 4 => .num 1
  | _, _ => .none

def c5wb : Workbook :=
  { sheets := [("S", { cells := c5cells, maxRow := 4, maxCol := 4, merged := [] })] }

/-- C5 counterexample: P/E canonicalizes to a token of the source's own
smaller-is-preferable list, yet its default composite weight is positive, not
sign-flipped: on the concrete workbook, stock A with the larger (worse, by
that convention) P/E receives the larger score contribution
`10 * 0.4`, B receives `1 * 0.4`. -/
theorem c5_counterexample :
    removeChar (removeChar (removeChar (pyLower "P/E") ' ') '.') '/' = "pe" ∧
    "pe" ∈ lower_is_better ∧
    ¬ default_weights "P/E" < 0 ∧
    find_best_stock_default c5wb =
      some [("A", 0 + 10 * default_weights "P/E" + 1 * default_weights "Div Yield"
              + 1 * default_weights "PBV"),
            ("B", 0 + 1 * default_weights "P/E" + 1 * default_weights "Div Yield"
              + 1 * default_weights "PBV")] := by
  refine ⟨by decide, by decide, by norm_num [default_weights], ?_⟩
  rfl

/-- C5 witness: the amended scoring theorem applied to the concrete workbook,
whose three default metrics resolve to columns 2, 3 and 4. -/
theorem c5_witness :
    best_stock_scores_go (parse_sheets c5wb) (detect_multirow_sheet c5wb)
        (sheet_info_get (parse_sheets c5wb) (detect_multirow_sheet c5wb)).sheet
        (sheet_info_get (parse_sheets c5wb) (detect_multirow_sheet c5wb)).primary_key_col
        ["P/E", "Div Yield", "PBV"] default_weights
        (sheet_info_get (parse_sheets c5wb) (detect_multirow_sheet c5wb)).data_rows =
      some ((sheet_info_get (parse_sheets c5wb)
          (detect_multirow_sheet c5wb)).data_rows.filterMap (fun row =>
        if !((sheet_info_get (parse_sheets c5wb)
            (detect_multirow_sheet c5wb)).sheet.cells row
            (sheet_info_get (parse_sheets c5wb)
              (detect_multirow_sheet c5wb)).primary_key_col).truthy then Option.none
        else
          match ((sheet_info_get (parse_sheets c5wb)
              (detect_multirow_sheet c5wb)).sheet.cells row 2).toNum,
            ((sheet_info_get (parse_sheets c5wb)
              (detect_multirow_sheet c5wb)).sheet.cells row 3).toNum,
            ((sheet_info_get (parse_sheets c5wb)
              (detect_multirow_sheet c5wb)).sheet.cells row 4).toNum with
          | some v1, some v2, some v3 =>
              some (pyStrip ((sheet_info_get (parse_sheets c5wb)
                  (detect_multirow_sheet c5wb)).sheet.cells row
                  (sheet_info_get (parse_sheets c5wb)
                    (detect_multirow_sheet c5wb)).primary_key_col).pyStr,
                0 + v1 * default_weights "P/E" + v2 * default_weights "Div Yield"
                  + v3 * default_weights "PBV")
          | _, _, _ => Option.none)) :=
  c5_composite_scoring.1 (parse_sheets c5wb) (detect_multirow_sheet c5wb)
    (sheet_info_get (parse_sheets c5wb) (detect_multirow_sheet c5wb)).sheet
    (sheet_info_get (parse_sheets c5wb) (detect_multirow_sheet c5wb)).primary_key_col
    (sheet_info_get (parse_sheets c5wb) (detect_multirow_sheet c5wb)).data_rows
    2 3 4 [] [] [] (by decide) (by decide) (by decide)

/-! ## _handle_multi_sheet_query (lines 773-801) -/

/-- Line appended when a metric resolves to no column of the named sheet
(line 782). -/
def msg_metric_not_found (metric sheet_name : String) : String :=
  "Metric \x27" ++ metric ++ "\x27 not found in sheet \x27" ++ sheet_name ++ "\x27."

/-- Line appended when the company is not found on a match's sheet (line
789). -/
def msg_company_not_found (code sheet_name metric : String) : String :=
  "Company " ++ code ++ " not found in " ++ sheet_name ++ " for metric \x27" ++ metric ++ "\x27."

/-- Membership lookup in the Python `row_cache` dict. -/
def cache_lookup (cache : List (String × Option Nat)) (name : String) :
    Option (Option Nat) :=
  match cache.find? (fun p => p.1 == name) with
  | some p => some p.2
  | Option.none => Option.none

/-- Python truthiness of the cached row (`if not row`). -/
def row_falsy : Option Nat → Bool
  | Option.none => true
  | some n => n == 0

/-- Inner loop of `_handle_multi_sheet_query` over the matches of one
(metric, sheet) pair (lines 784-794): fill the row cache, append the
company-not-found line for a falsy row, then `continue` — the `continue` on
line 790 executes unconditionally at loop-body level, so the cell-reading
statements of lines 791-794 are unreachable and no value line is ever
appended. Returns the appended lines and the updated cache. -/
def multi_sheet_inner (infos : List (String × SheetInfo)) (code metric : String) :
    List (String × Nat × String) → List (String × Option Nat) →
      List String × List (String × Option Nat)
  | [], cache => ([], cache)
  | (s, _, _) :: rest, cache =>
      let cache2 :=
        match cache_lookup cache s with
        | some _ => cache
        | Option.none => cache ++ [(s, find_company (sheet_info_get infos s) code)]
      let row :=
        match cache_lookup cache2 s with
        | some r => r
        | Option.none => Option.none
      let lines :=
        if row_falsy row then [msg_company_not_found code s metric] else []
      let next := multi_sheet_inner infos code metric rest cache2
      (lines ++ next.1, next.2)

/-- Outer loop of `_handle_multi_sheet_query` over the (metric, sheet) pairs
(lines 779-794), threading the row cache. -/
def multi_sheet_lines (infos : List (String × SheetInfo)) (code : String) :
    List (String × String) → List (String × Option Nat) → List String
  | [], _ => []
  | (metric, sheet_name) :: rest, cache =>
      if (find_column_across_sheets infos metric).filter
          (fun m => pyLower m.1 == pyLower sheet_name) = [] then
        msg_metric_not_found metric sheet_name :: multi_sheet_lines infos code rest cache
      else
        (multi_sheet_inner infos code metric
            ((find_column_across_sheets infos metric).filter
              (fun m => pyLower m.1 == pyLower sheet_name)) cache).1 ++
          multi_sheet_lines infos code rest
            (multi_sheet_inner infos code metric
              ((find_column_across_sheets infos metric).filter
                (fun m => pyLower m.1 == pyLower sheet_name)) cache).2

/-- `_handle_multi_sheet_query` (lines 773-801), returning the result text
(the chart payload of line 799 is presentation and not modelled). -/
def handle_multi_sheet_query (wb : Workbook) (code0 : String)
    (metric_sheet_pairs : List (String × String)) : String :=
  if multi_sheet_lines (parse_sheets wb) (pyStrip (pyUpper code0)) metric_sheet_pairs [] = []
  then "No data found for " ++ pyStrip (pyUpper code0) ++ " with specified metrics."
  else "Data for " ++ pyStrip (pyUpper code0) ++ ":\n" ++
    joinSep "\n" (multi_sheet_lines (parse_sheets wb) (pyStrip (pyUpper code0))
      metric_sheet_pairs [])

theorem multi_sheet_inner_lines (infos : List (String × SheetInfo)) (code metric : String) :
    ∀ (match_list : List (String × Nat × String)) (cache : List (String × Option Nat))
      (line : String),
      line ∈ (multi_sheet_inner infos code metric match_list cache).1 →
      ∃ s, line = msg_company_not_found code s metric := by
  intro match_list
  induction match_list with
  | nil =>
      intro cache line h
      exact absurd h (by simp [multi_sheet_inner])
  | cons m rest ih =>
      intro cache line h
      obtain ⟨s, c, hd⟩ := m
      unfold multi_sheet_inner at h
      rw [List.mem_append] at h
      rcases h with h | h
      · by_cases hf : row_falsy (match cache_lookup
            (match cache_lookup cache s with
             | some _ => cache
             | Option.none => cache ++ [(s, find_company (sheet_info_get infos s) code)]) s with
           | some r => r
           | Option.none => Option.none)
        · rw [if_pos hf] at h
          exact ⟨s, by simpa using h⟩
        · rw [if_neg hf] at h
          exact absurd h (by simp)
      · exact ih _ line h

/-! ## C9 — the unreachable value lines of the multi-sheet handler -/

/-- C9: every line the multi-sheet handler accumulates is a metric-not-found
line or a company-not-found line — for a pair whose metric column and company
row are both found, nothing at all is appended, because the loop-level
`continue` of line 790 makes the cell-reading code of lines 791-794
unreachable — and the returned text is either the no-data message or the bare
`Data for CODE:` prefix followed by those lines only; a retrieved metric
value never appears. -/
theorem c9_multi_sheet_no_value_lines :
    (∀ (infos : List (String × SheetInfo)) (code : String)
       (pairs : List (String × String)) (cache : List (String × Option Nat))
       (line : String),
       line ∈ multi_sheet_lines infos code pairs cache →
       (∃ metric sheet_name, line = msg_metric_not_found metric sheet_name) ∨
       (∃ sheet_name metric, line = msg_company_not_found code sheet_name metric)) ∧
    (∀ (wb : Workbook) (code0 : String) (pairs : List (String × String)),
       handle_multi_sheet_query wb code0 pairs =
         if multi_sheet_lines (parse_sheets wb) (pyStrip (pyUpper code0)) pairs [] = []
         then "No data found for " ++ pyStrip (pyUpper code0) ++ " with specified metrics."
         else "Data for " ++ pyStrip (pyUpper code0) ++ ":\n" ++
           joinSep "\n" (multi_sheet_lines (parse_sheets wb) (pyStrip (pyUpper code0))
             pairs [])) := by
  constructor
  · intro infos code pairs
    induction pairs with
    | nil =>
        intro cache line h
        exact absurd h (by simp [multi_sheet_lines])
    | cons p rest ih =>
        intro cache line h
        obtain ⟨metric, sheet_name⟩ := p
        unfold multi_sheet_lines at h
        by_cases hm : (find_column_across_sheets infos metric).filter
            (fun m => pyLower m.1 == pyLower sheet_name) = []
        · rw [if_pos hm, List.mem_cons] at h
          rcases h with h | h
          · exact Or.inl ⟨metric, sheet_name, h⟩
          · exact ih _ line h
        · rw [if_neg hm, List.mem_append] at h
          rcases h with h | h
          · obtain ⟨s, hs⟩ := multi_sheet_inner_lines infos code metric _ _ line h
            exact Or.inr ⟨s, metric, hs⟩
          · exact ih _ line h
  · intro wb code0 pairs
    rfl

/-- C9 witness: on the concrete workbook, a pair whose metric and company are
both found appends nothing, an unknown company produces exactly the
company-not-found line, and that line has one of the two allowed shapes. -/
theorem c9_witness :
    multi_sheet_lines (parse_sheets c5wb) "A" [("P/E", "S")] [] = [] ∧
    multi_sheet_lines (parse_sheets c5wb) "ZZZ" [("P/E", "S")] [] =
      [msg_company_not_found "ZZZ" "S" "P/E"] ∧
    ((∃ metric sheet_name,
        msg_company_not_found "ZZZ" "S" "P/E" = msg_metric_not_found metric sheet_name) ∨
     (∃ sheet_name metric,
        msg_company_not_found "ZZZ" "S" "P/E" = msg_company_not_found "ZZZ" sheet_name metric)) :=
  ⟨by decide, by decide,
   c9_multi_sheet_no_value_lines.1 (parse_sheets c5wb) "ZZZ" [("P/E", "S")] []
     (msg_company_not_found "ZZZ" "S" "P/E") (by decide)⟩

/-! ## A backtracking matcher for the `re` patterns of process_query

The engine covers exactly the constructs those patterns use: literals,
single-character classes, concatenation, ordered alternation, greedy
optionals, greedy and lazy repetition, and capturing groups. `reSearch`
reproduces `re.search`: the match attempt is made at every start position in
order, and within one position alternatives are explored in Python's
backtracking preference order (greedy prefers longer, lazy prefers shorter).
Character classes are the ASCII readings of the classes appearing in the
patterns; the queries normalized by `process_query` are lower-cased, and
every concrete input considered below is ASCII. -/

/-- Captured groups: (group index, captured characters), most recent first —
as in Python, a later capture of the same group shadows an earlier one. -/
abbrev Caps : Type := List (Nat × List Char)

/-- Regular-expression syntax; the `Bool` of `star` is laziness. -/
inductive RE where
  | eps : RE
  | lit : List Char → RE
  | cls : (Char → Bool) → RE
  | seq : RE → RE → RE
  | alt : RE → RE → RE
  | opt : RE → RE
  | star : RE → Bool → RE
  | grp : Nat → RE → RE

/-- Backtracking matcher in continuation-passing style, structurally
recursive on a fuel that bounds the depth of nested engine steps; every
repetition iteration must consume at least one character (Python's engine
likewise never repeats an empty match), so the generous fuel supplied by
`reSearch` below is ample and the fuel-exhaustion branch is never reached on
the patterns and inputs considered here. -/
def reMatch : Nat → RE → List Char → Caps → (List Char → Caps → Option Caps) → Option Caps
  | 0, _, _, _, _ => Option.none
  | fuel + 1, re, s, caps, k =>
      match re with
      | .eps => k s caps
      | .lit l => if l.isPrefixOf s then k (s.drop l.length) caps else Option.none
      | .cls p =>
          match s with
          | [] => Option.none
          | c :: s2 => if p c then k s2 caps else Option.none
      | .seq a b => reMatch fuel a s caps (fun s2 c2 => reMatch fuel b s2 c2 k)
      | .alt a b =>
          match reMatch fuel a s caps k with
          | some res => some res
          | Option.none => reMatch fuel b s caps k
      | .opt r =>
          match reMatch fuel r s caps k with
          | some res => some res
          | Option.none => k s caps
      | .grp i r =>
          reMatch fuel r s caps (fun s2 c2 => k s2 ((i, s.take (s.length - s2.length)) :: c2))
      | .star r lazy =>
          if lazy then
            match k s caps with
            | some res => some res
            | Option.none =>
                reMatch fuel r s caps (fun s2 c2 =>
                  if s2.length < s.length then reMatch fuel (.star r lazy) s2 c2 k
                  else Option.none)
          else
            match reMatch fuel r s caps (fun s2 c2 =>
                if s2.length < s.length then reMatch fuel (.star r lazy) s2 c2 k
                else Option.none) with
            | some res => some res
            | Option.none => k s caps

/-- Structural size of a pattern, used to provision fuel. -/
def reSize : RE → Nat
  | .eps => 1
  | .lit _ => 1
  | .cls _ => 1
  | .seq a b => reSize a + reSize b + 1
  | .alt a b => reSize a + reSize b + 1
  | .opt r => reSize r + 1
  | .star r _ => reSize r + 1
  | .grp _ r => reSize r + 1

/-- Fuel ample for a match attempt of `re` on `s`: the static call nesting of
the engine is at most one frame per pattern node per consumed character. -/
def reFuel (re : RE) (s : List Char) : Nat := (reSize re + 2) * (s.length + 3) + 16

/-- `re.search`: try a match at each start position, leftmost first. -/
def reSearchFrom (re : RE) : List Char → Option Caps
  | [] => reMatch (reFuel re []) re [] [] (fun _ caps => some caps)
  | c :: rest =>
      match reMatch (reFuel re (c :: rest)) re (c :: rest) [] (fun _ caps => some caps) with
      | some caps => some caps
      | Option.none => reSearchFrom re rest

def reSearch (re : RE) (s : String) : Option Caps := reSearchFrom re s.data

/-- Python `match.group(i)`: `none` when the group did not participate. -/
def cap_get (caps : Caps) (i : Nat) : Option (List Char) :=
  match List.find? (fun p => p.1 == i) caps with
  | some p => some p.2
  | Option.none => Option.none

/-- `match.group(i)` for a mandatory (always participating) group. -/
def cap_str (caps : Caps) (i : Nat) : String :=
  match cap_get caps i with
  | some l => String.mk l
  | Option.none => ""

/-! ## The regex patterns of process_query (New_app lines 1140-1156) -/

def isLowerAlnum (c : Char) : Bool := ('a' ≤ c && c ≤ 'z') || ('0' ≤ c && c ≤ '9')

def isWordChar (c : Char) : Bool :=
  ('a' ≤ c && c ≤ 'z') || ('A' ≤ c && c ≤ 'Z') || ('0' ≤ c && c ≤ '9') || c = '_'

def isDigitChar (c : Char) : Bool := '0' ≤ c && c ≤ '9'

/-- Right-nested concatenation of a rule's elements. -/
def reSeq : List RE → RE
  | [] => .eps
  | [r] => r
  | r :: s :: rest => .seq r (reSeq (s :: rest))

def reOf (s : String) : RE := .lit s.data

/-- Greedy `x+`. -/
def rePlus (r : RE) : RE := .seq r (.star r false)

/-- Lazy `x+?`. -/
def rePlusLazy (r : RE) : RE := .seq r (.star r true)

/-- Greedy `x*`. -/
def reStar (r : RE) : RE := .star r false

/-- `.` — any character but a newline. -/
def dotCls : RE := .cls (fun c => c ≠ '\n')

/-- `\s+` and `\s*`. -/
def reWsPlus : RE := rePlus (.cls isSpaceChar)

def reWsStar : RE := reStar (.cls isSpaceChar)

/-- `[\w\s,&]` — the sector-name class. -/
def sectorCls : RE := .cls (fun c => isWordChar c || isSpaceChar c || c = ',' || c = '&')

/-- `[a-z0-9\.\/]` — the metric class of the lowest/highest/best rules. -/
def metricCls : RE := .cls (fun c => isLowerAlnum c || c = '.' || c = '/')

/-- `[\d\.]` — the numeric-bound class of the range rule. -/
def digitDotCls : RE := .cls (fun c => isDigitChar c || c = '.')

/-- `[\w\s\d]` — the sheet-name class of the multi-sheet rule. -/
def sheetCls : RE := .cls (fun c => isWordChar c || isSpaceChar c || isDigitChar c)

/-- `(.+?)\s+from\s+([\w\s\d]+)\s+and\s+(.+?)\s+from\s+([\w\s\d]+)\s+for\s+([a-z0-9\.]+)` -/
def multi_sheet_pattern : RE :=
  reSeq [.grp 1 (rePlusLazy dotCls), reWsPlus, reOf "from", reWsPlus,
    .grp 2 (rePlus sheetCls), reWsPlus, reOf "and", reWsPlus, .grp 3 (rePlusLazy dotCls),
    reWsPlus, reOf "from", reWsPlus, .grp 4 (rePlus sheetCls), reWsPlus, reOf "for",
    reWsPlus, .grp 5 (rePlus (.cls (fun c => isLowerAlnum c || c = '.')))]

/-- `(.+?)\s+for\s+([a-z0-9]+)` -/
def multi_metric_pattern : RE :=
  reSeq [.grp 1 (rePlusLazy dotCls), reWsPlus, reOf "for", reWsPlus,
    .grp 2 (rePlus (.cls isLowerAlnum))]

/-- `(.+?)\s+for\s+sector\s+([\w\s,&]+)` -/
def sector_pattern : RE :=
  reSeq [.grp 1 (rePlusLazy dotCls), reWsPlus, reOf "for", reWsPlus, reOf "sector",
    reWsPlus, .grp 2 (rePlus sectorCls)]

/-- `average\s+(.+)` -/
def general_pattern : RE := reSeq [reOf "average", reWsPlus, .grp 1 (rePlus dotCls)]

/-- `(?:what is|define)\s+(.+)` -/
def define_pattern : RE :=
  reSeq [.alt (reOf "what is") (reOf "define"), reWsPlus, .grp 1 (rePlus dotCls)]

/-- `(?:best stock|which stock is best|top stocks?)(?:\s+by\s+(.+))?` -/
def best_stock_pattern : RE :=
  .seq (.alt (reOf "best stock") (.alt (reOf "which stock is best")
      (.seq (reOf "top stock") (.opt (reOf "s")))))
    (.opt (reSeq [reWsPlus, reOf "by", reWsPlus, .grp 1 (rePlus dotCls)]))

/-- `(?:best sector|which sector is best|top sectors?)(?:\s+by\s+(.+))?` -/
def best_sector_pattern : RE :=
  .seq (.alt (reOf "best sector") (.alt (reOf "which sector is best")
      (.seq (reOf "top sector") (.opt (reOf "s")))))
    (.opt (reSeq [reWsPlus, reOf "by", reWsPlus, .grp 1 (rePlus dotCls)]))

/-- `lowest\s+([a-z0-9\.\/]+)` -/
def lowest_metric_pattern : RE :=
  reSeq [reOf "lowest", reWsPlus, .grp 1 (rePlus metricCls)]

/-- `highest\s+([a-z0-9\.\/]+)` -/
def highest_metric_pattern : RE :=
  reSeq [reOf "highest", reWsPlus, .grp 1 (rePlus metricCls)]

/-- `(?:best|lowest|highest)\s+([a-z0-9\.\/]+)` -/
def best_metric_pattern : RE :=
  reSeq [.alt (reOf "best") (.alt (reOf "lowest") (reOf "highest")), reWsPlus,
    .grp 1 (rePlus metricCls)]

/-- `(?:which stocks are best|compare stocks)\s+((?:[a-z0-9]+(?:\s*,\s*[a-z0-9]+)*))\s*(?:by\s+(.+))?` -/
def compare_stocks_pattern : RE :=
  reSeq [.alt (reOf "which stocks are best") (reOf "compare stocks"), reWsPlus,
    .grp 1 (.seq (rePlus (.cls isLowerAlnum))
      (reStar (reSeq [reWsStar, reOf ",", reWsStar, rePlus (.cls isLowerAlnum)]))),
    reWsStar,
    .opt (reSeq [reOf "by", reWsPlus, .grp 2 (rePlus dotCls)])]

/-- `([a-z0-9]+)\s+vs\s+([a-z0-9]+)\s+vs\s+sector\s+([\w\s,&]+)\s+by\s+(.+)` -/
def compare_mixed_pattern : RE :=
  reSeq [.grp 1 (rePlus (.cls isLowerAlnum)), reWsPlus, reOf "vs", reWsPlus,
    .grp 2 (rePlus (.cls isLowerAlnum)), reWsPlus, reOf "vs", reWsPlus, reOf "sector",
    reWsPlus, .grp 3 (rePlus sectorCls), reWsPlus, reOf "by", reWsPlus,
    .grp 4 (rePlus dotCls)]

/-- `sector\s+([\w\s,&]+)\s+vs\s+sector\s+([\w\s,&]+)\s+by\s+(.+)` (line 1153). -/
def compare_sectors_pattern : RE :=
  reSeq [reOf "sector", reWsPlus, .grp 1 (rePlus sectorCls), reWsPlus, reOf "vs",
    reWsPlus, reOf "sector", reWsPlus, .grp 2 (rePlus sectorCls), reWsPlus, reOf "by",
    reWsPlus, .grp 3 (rePlus dotCls)]

/-- Line 1156 repeats the identical pattern text under a second name. -/
def sector_vs_sector_pattern : RE := compare_sectors_pattern

/-- `show\s+(.+?)\s+where\s+(.+?)\s+between\s+([\d\.]+)\s+and\s+([\d\.]+)` -/
def range_pattern : RE :=
  reSeq [reOf "show", reWsPlus, .grp 1 (rePlusLazy dotCls), reWsPlus, reOf "where",
    reWsPlus, .grp 2 (rePlusLazy dotCls), reWsPlus, reOf "between", reWsPlus,
    .grp 3 (rePlus digitDotCls), reWsPlus, reOf "and", reWsPlus,
    .grp 4 (rePlus digitDotCls)]

/-- `([a-z0-9]+)\s+vs\s+sector\s+([\w\s,&]+)\s+by\s+(.+)` -/
def stock_vs_sector_pattern : RE :=
  reSeq [.grp 1 (rePlus (.cls isLowerAlnum)), reWsPlus, reOf "vs", reWsPlus,
    reOf "sector", reWsPlus, .grp 2 (rePlus sectorCls), reWsPlus, reOf "by", reWsPlus,
    .grp 3 (rePlus dotCls)]

/-! ## process_query dispatch (New_app lines 1133-1344) -/

/-- `_normalize_metric` (lines 102-112). The alias table `metric_mappings`
comes from the repository's `metric_dictionary` module, which is not among
the sources, so the dispatch is parametrized by the table; the first (raw,
mapped) entry whose cleaned raw or mapped name equals the cleaned metric
wins, else the metric is returned unchanged. -/
def normalize_metric (mappings : List (String × String)) (metric : String) : String :=
  if metric = "" then metric
  else
    match mappings.find? (fun rm =>
        pyStrip (removeChar (removeChar (pyLower metric) '.') '/') ==
            removeChar (removeChar (pyLower rm.1) '.') '/' ||
          pyStrip (removeChar (removeChar (pyLower metric) '.') '/') ==
            removeChar (removeChar (pyLower rm.2) '.') '/') with
    | some rm => rm.2
    | Option.none => metric

/-- Python `float()` on a string matched by `[\d\.]+`: a value when at most
one dot and at least one digit are present, else the `ValueError` case. -/
def digitsToNat (l : List Char) : Nat :=
  l.foldl (fun acc c => acc * 10 + (c.toNat - '0'.toNat)) 0

def py_float_parse (s : String) : Option ℚ :=
  if (s.data.filter (fun c => c = '.')).length ≤ 1 && s.data.any isDigitChar then
    some ((digitsToNat (s.data.takeWhile (fun c => c ≠ '.')) : ℚ) +
      (digitsToNat ((s.data.dropWhile (fun c => c ≠ '.')).drop 1) : ℚ) /
        ((10 : ℚ) ^ ((s.data.dropWhile (fun c => c ≠ '.')).drop 1).length))
  else Option.none

/-- `re.split(r',\s*', s)`: split at each comma and the whitespace following
it. -/
def split_comma_ws (acc : List Char) : List Char → List String
  | [] => [String.mk acc]
  | c :: rest =>
      if c = ',' then String.mk acc :: split_comma_ws [] (rest.dropWhile isSpaceChar)
      else split_comma_ws (acc ++ [c]) rest
termination_by l => l.length
decreasing_by
  · have h := (List.dropWhile_sublist isSpaceChar (l := rest)).length_le
    simp only [List.length_cons]
    omega
  · simp

/-- `s.split(' and ')`. -/
def split_and_go (acc : List Char) : List Char → List String
  | [] => [String.mk acc]
  | c :: rest =>
      if (' ' :: "and ".data).isPrefixOf (c :: rest) then
        String.mk acc :: split_and_go [] (rest.drop "and ".data.length)
      else split_and_go (acc ++ [c]) rest
termination_by l => l.length
decreasing_by
  · simp only [List.length_drop, List.length_cons]
    omega
  · simp

def split_on_and (s : String) : List String := split_and_go [] s.data

/-- `part.split('.')[-1]`: text after the last dot. -/
def afterLastDot (s : String) : String :=
  String.mk ((s.data.reverse.takeWhile (fun c => c ≠ '.')).reverse)

/-- Stock-code list parsing of the compare-stocks branch (lines 1257-1265):
an upper-cased part keeps a dot extension of at most 2 characters, else is
cut at its first dot. -/
def parse_stock_codes (stocks_str : String) : List String :=
  (split_comma_ws [] (pyStrip stocks_str).data).map (fun part0 =>
    let part := pyUpper (pyStrip part0)
    if containsChar part '.' && (afterLastDot part).length ≤ 2 then part
    else takeBeforeSeq "." part)

/-- The handler invocation selected by the `process_query` dispatch, with the
arguments the branch extracts and normalizes before calling the handler (any
entity validation and the handler body itself happen after this point and are
modelled separately above). -/
inductive QueryAction where
  | findLowestMetric : String → QueryAction
  | findHighestMetric : String → QueryAction
  | rangeQuery : String → String → ℚ → ℚ → QueryAction
  | invalidRangeValues : QueryAction
  | compareSectorsQuery : String → String → String → QueryAction
  | compareMixedQuery : String → String → String → String → QueryAction
  | stockVsSectorQuery : String → String → String → QueryAction
  | sectorVsSectorQuery : String → String → String → QueryAction
  | compareStocksQuery : List String → String → QueryAction
  | sectorMetricQuery : String → String → QueryAction
  | multiSheetQuery : String → List (String × String) → QueryAction
  | companyMultiMetric : String → List String → QueryAction
  | defineQuery : String → QueryAction
  | bestStockQuery : Option String → QueryAction
  | bestSectorQuery : Option String → QueryAction
  | bestMetricQuery : String → QueryAction
  | generalAverageQuery : String → QueryAction
  | notUnderstoodReply : QueryAction
deriving DecidableEq

/-- Normal return or an uncaught Python exception. -/
inductive PyResult (α : Type) where
  | ok : α → PyResult α
  | exn : String → PyResult α
deriving DecidableEq

/-- `query.strip().lower()` (lines 1135-1136). -/
def normalized_query (q : String) : String := pyLower (pyStrip q)

/-- The `process_query` dispatch (lines 1133-1344): the ordered rule chain,
each branch reduced to the handler invocation it selects with the arguments
it extracts. The multi-metric guard of lines 1299-1306 (substring tests, then
the same regex that the single-metric rule searches next) is folded into one
match on that shared regex, which is equivalent because `re.search` is
deterministic. In the best-sector branch (lines 1328-1331) the source reads
`best_stock_match.group(1)` — `best_stock_match` is the result of the
best-stock search of line 1323, which must have failed for this branch to be
reached, so the attribute access raises `AttributeError`. -/
def process_query_dispatch (mappings : List (String × String)) (query : String) :
    PyResult QueryAction :=
  let q := normalized_query query
  match reSearch lowest_metric_pattern q with
  | some caps =>
      .ok (.findLowestMetric (normalize_metric mappings (pyStrip (cap_str caps 1))))
  | Option.none =>
  match reSearch highest_metric_pattern q with
  | some caps =>
      .ok (.findHighestMetric (normalize_metric mappings (pyStrip (cap_str caps 1))))
  | Option.none =>
  match reSearch range_pattern q with
  | some caps =>
      (match py_float_parse (cap_str caps 3), py_float_parse (cap_str caps 4) with
       | some lo, some hi =>
           .ok (.rangeQuery (normalize_metric mappings (pyStrip (cap_str caps 1)))
             (normalize_metric mappings (pyStrip (cap_str caps 2))) lo hi)
       | _, _ => .ok .invalidRangeValues)
  | Option.none =>
  match reSearch compare_sectors_pattern q with
  | some caps =>
      .ok (.compareSectorsQuery (pyStrip (pyUpper (cap_str caps 1)))
        (pyStrip (pyUpper (cap_str caps 2)))
        (normalize_metric mappings (pyStrip (cap_str caps 3))))
  | Option.none =>
  match reSearch compare_mixed_pattern q with
  | some caps =>
      .ok (.compareMixedQuery (pyStrip (pyUpper (cap_str caps 1)))
        (pyStrip (pyUpper (cap_str caps 2))) (pyStrip (pyUpper (cap_str caps 3)))
        (normalize_metric mappings (pyStrip (cap_str caps 4))))
  | Option.none =>
  match reSearch stock_vs_sector_pattern q with
  | some caps =>
      .ok (.stockVsSectorQuery (pyStrip (pyUpper (cap_str caps 1)))
        (pyStrip (pyUpper (cap_str caps 2)))
        (normalize_metric mappings (pyStrip (cap_str caps 3))))
  | Option.none =>
  match reSearch sector_vs_sector_pattern q with
  | some caps =>
      .ok (.sectorVsSectorQuery (pyStrip (pyUpper (cap_str caps 1)))
        (pyStrip (pyUpper (cap_str caps 2)))
        (normalize_metric mappings (pyStrip (cap_str caps 3))))
  | Option.none =>
  match reSearch compare_stocks_pattern q with
  | some caps =>
      .ok (.compareStocksQuery (parse_stock_codes (cap_str caps 1))
        (normalize_metric mappings
          (match cap_get caps 2 with
           | some g => if g ≠ [] then pyStrip (String.mk g) else "P/E"
           | Option.none => "P/E")))
  | Option.none =>
  match reSearch sector_pattern q with
  | some caps =>
      if pyStrip (pyUpper (cap_str caps 2)) = "ALL SECTORS" then
        .ok (.sectorMetricQuery "all sectors"
          (normalize_metric mappings (pyStrip (cap_str caps 1))))
      else
        .ok (.sectorMetricQuery (pyStrip (pyUpper (cap_str caps 2)))
          (normalize_metric mappings (pyStrip (cap_str caps 1))))
  | Option.none =>
  match reSearch multi_sheet_pattern q with
  | some caps =>
      .ok (.multiSheetQuery (cap_str caps 5)
        [(normalize_metric mappings (pyStrip (cap_str caps 1)), cap_str caps 2),
         (normalize_metric mappings (pyStrip (cap_str caps 3)), cap_str caps 4)])
  | Option.none =>
  match reSearch multi_metric_pattern q with
  | some caps =>
      if containsSeq " and " q && containsSeq " for " q then
        .ok (.companyMultiMetric (cap_str caps 2)
          ((split_on_and (cap_str caps 1)).map
            (fun m => normalize_metric mappings (pyStrip m))))
      else
        .ok (.companyMultiMetric (cap_str caps 2)
          [normalize_metric mappings (pyStrip (cap_str caps 1))])
  | Option.none =>
  match reSearch define_pattern q with
  | some caps =>
      .ok (.defineQuery (normalize_metric mappings (pyStrip (cap_str caps 1))))
  | Option.none =>
  match reSearch best_stock_pattern q with
  | some caps =>
      .ok (.bestStockQuery
        (match cap_get caps 1 with
         | some g =>
             if g ≠ []
             then some (normalize_metric mappings (pyStrip (String.mk g)))
             else Option.none
         | Option.none => Option.none))
  | Option.none =>
  match reSearch best_sector_pattern q with
  | some caps =>
      (match cap_get caps 1 with
       | some g =>
           if g ≠ [] then
             match reSearch best_stock_pattern q with
             | Option.none => .exn "AttributeError"
             | some caps2 =>
                 match cap_get caps2 1 with
                 | Option.none => .exn "AttributeError"
                 | some g2 =>
                     .ok (.bestSectorQuery
                       (some (normalize_metric mappings (pyStrip (String.mk g2)))))
           else .ok (.bestSectorQuery Option.none)
       | Option.none => .ok (.bestSectorQuery Option.none))
  | Option.none =>
  match reSearch best_metric_pattern q with
  | some caps =>
      .ok (.bestMetricQuery (normalize_metric mappings (pyStrip (cap_str caps 1))))
  | Option.none =>
  match reSearch general_pattern q with
  | some caps =>
      .ok (.generalAverageQuery (normalize_metric mappings (pyStrip (cap_str caps 1))))
  | Option.none => .ok .notUnderstoodReply

/-! ## C1 — the best-sector branch raises -/

/-- C1: after any successful load, the free-text query "best sector by pe"
does not produce a result string: no earlier rule matches, the best-sector
rule matches with a truthy criteria group, and the branch body evaluates
`best_stock_match.group(1)` although `best_stock_match` is `None` (the
best-stock search of line 1323 necessarily failed for this branch to be
reached), so an `AttributeError` propagates out of `process_query` — before
any workbook access, hence for every loaded workbook and every alias
table. -/
theorem c1_best_sector_raises :
    ∀ mappings : List (String × String),
      process_query_dispatch mappings "best sector by pe" = .exn "AttributeError" := by
  intro mappings
  rfl

/-! ## C6 — rule order: lowest/highest before the range filter -/

/-- C6 counterexample: the query "show lowest pe where pe between 1 and 2"
matches both the range-filter pattern and the lowest-metric pattern, and the
dispatch handles it as a lowest-metric query, not as a range filter. -/
theorem c6_counterexample :
    (reSearch range_pattern
      (normalized_query "show lowest pe where pe between 1 and 2")).isSome = true ∧
    (reSearch lowest_metric_pattern
      (normalized_query "show lowest pe where pe between 1 and 2")).isSome = true ∧
    process_query_dispatch [] "show lowest pe where pe between 1 and 2" =
      .ok (.findLowestMetric "pe") := by
  refine ⟨by decide, by decide, by rfl⟩

/-- C6 (amended): classification is first-match-wins over the ordered rule
chain, in which the lowest- and highest-metric rules precede the range-filter
rule: a query matching the lowest-metric pattern is always handled as a
lowest-metric query (even when it also matches the range-filter pattern), a
query matching only the highest-metric pattern likewise, and the range-filter
rule fires exactly on the remaining queries matching the range pattern. -/
theorem c6_rule_order (mappings : List (String × String)) (q : String) :
    ((reSearch lowest_metric_pattern (normalized_query q)).isSome = true →
      ∃ metric, process_query_dispatch mappings q = .ok (.findLowestMetric metric)) ∧
    ((reSearch lowest_metric_pattern (normalized_query q)).isSome = false →
      (reSearch highest_metric_pattern (normalized_query q)).isSome = true →
      ∃ metric, process_query_dispatch mappings q = .ok (.findHighestMetric metric)) ∧
    ((reSearch lowest_metric_pattern (normalized_query q)).isSome = false →
      (reSearch highest_metric_pattern (normalized_query q)).isSome = false →
      (reSearch range_pattern (normalized_query q)).isSome = true →
      (∃ dm fm lo hi, process_query_dispatch mappings q = .ok (.rangeQuery dm fm lo hi)) ∨
        process_query_dispatch mappings q = .ok .invalidRangeValues) := by
  refine ⟨?_, ?_, ?_⟩
  · intro h1
    rcases hl : reSearch lowest_metric_pattern (normalized_query q) with - | caps
    · rw [hl] at h1
      exact absurd h1 (by simp)
    · refine ⟨normalize_metric mappings (pyStrip (cap_str caps 1)), ?_⟩
      unfold process_query_dispatch
      dsimp only
      rw [hl]
  · intro h1 h2
    have hl : reSearch lowest_metric_pattern (normalized_query q) = Option.none := by
      rcases hx : reSearch lowest_metric_pattern (normalized_query q) with - | caps
      · rfl
      · rw [hx] at h1
        exact absurd h1 (by simp)
    rcases hh : reSearch highest_metric_pattern (normalized_query q) with - | caps
    · rw [hh] at h2
      exact absurd h2 (by simp)
    · refine ⟨normalize_metric mappings (pyStrip (cap_str caps 1)), ?_⟩
      unfold process_query_dispatch
      dsimp only
      rw [hl, hh]
  · intro h1 h2 h3
    have hl : reSearch lowest_metric_pattern (normalized_query q) = Option.none := by
      rcases hx : reSearch lowest_metric_pattern (normalized_query q) with - | caps
      · rfl
      · rw [hx] at h1
        exact absurd h1 (by simp)
    have hh : reSearch highest_metric_pattern (normalized_query q) = Option.none := by
      rcases hx : reSearch highest_metric_pattern (normalized_query q) with - | caps
      · rfl
      · rw [hx] at h2
        exact absurd h2 (by simp)
    rcases hr : reSearch range_pattern (normalized_query q) with - | caps
    · rw [hr] at h3
      exact absurd h3 (by simp)
    · unfold process_query_dispatch
      dsimp only
      rw [hl, hh, hr]
      dsimp only
      rcases hp3 : py_float_parse (cap_str caps 3) with - | lo
      · exact Or.inr rfl
      · rcases hp4 : py_float_parse (cap_str caps 4) with - | hi
        · exact Or.inr rfl
        · exact Or.inl ⟨normalize_metric mappings (pyStrip (cap_str caps 1)),
            normalize_metric mappings (pyStrip (cap_str caps 2)), lo, hi, rfl⟩

/-- C6 witness: the rule-order theorem applied at two concrete queries — one
matching both the lowest and range patterns (classified lowest), one matching
only the range pattern (classified range filter). -/
theorem c6_witness :
    (∃ metric, process_query_dispatch [] "show lowest pe where pe between 1 and 2" =
      .ok (.findLowestMetric metric)) ∧
    ((∃ dm fm lo hi, process_query_dispatch [] "show pe where pe between 1 and 2" =
        .ok (.rangeQuery dm fm lo hi)) ∨
      process_query_dispatch [] "show pe where pe between 1 and 2" =
        .ok .invalidRangeValues) :=
  ⟨(c6_rule_order [] "show lowest pe where pe between 1 and 2").1 (by decide),
   (c6_rule_order [] "show pe where pe between 1 and 2").2.2 (by decide) (by decide)
     (by decide)⟩
